import Mathlib

/-!
# Verification of the pool decoding and registry subsystem

Shallow embedding of the Rust sources of a multi-venue on-chain
arbitrage bot (`src/dex/pump/amm_info.rs`, `src/dex/humidifi/info.rs`,
`src/refresh.rs`, `src/pool_refreshers.rs`, `src/pools.rs`,
`src/constants.rs`, `src/dex/*/mod.rs`), together with theorems about
the decoders, the pool-kind detector, the mint-extraction logic, the
registration loops of `initialize_pool_data`, and the pool refreshers.

Machine integers are modelled as `Nat` (a byte is a `Nat < 256`); a
Solana `Pubkey` is its 32-byte representation, a `List Nat`.  Fallible
Rust code returns `Except`/`Option`; Rust code that can panic (slice
indexing out of range) is modelled with an explicit `panicked` result
constructor.  Library functions of the Solana SDK that are not part of
this repository (`Pubkey::find_program_address`,
`get_associated_token_address`) are taken as parameters of the
embedded functions, since their values never influence the control
flow under verification.
-/

set_option maxRecDepth 100000
set_option maxHeartbeats 1000000

deriving instance DecidableEq for Except

namespace ArbBot

/-! ## Bytes and addresses -/

/-- A Solana public key: 32 bytes, each `< 256`.  Equality-comparable. -/
abbrev Pubkey := List Nat

/-- `Pubkey::default()`: the all-zero address. -/
def zeroPubkey : Pubkey := List.replicate 32 0

/-- Little-endian byte decoding: `u64::from_le_bytes` and friends. -/
def fromLEBytes (bs : List Nat) : Nat :=
  bs.foldr (fun b acc => b + 256 * acc) 0

/-- `k`-byte little-endian encoding of `n` (`u64::to_le_bytes` is `k = 8`). -/
def natToLEBytes : Nat → Nat → List Nat
  | 0, _ => []
  | k + 1, n => n % 256 :: natToLEBytes k (n / 256)

/-- `k`-byte big-endian encoding of `n`; used to turn the base58 value of a
constant address string into its 32-byte `Pubkey` form. -/
def natToBEBytes : Nat → Nat → List Nat
  | 0, _ => []
  | k + 1, n => natToBEBytes k (n / 256) ++ [n % 256]

/-- The base58 alphabet used by Solana address strings. -/
def base58Alphabet : List Char :=
  "123456789ABCDEFGHJKLMNPQRSTUVWXYZabcdefghijkmnopqrstuvwxyz".data

/-- Value of one base58 digit. -/
def base58DigitVal (c : Char) : Nat := base58Alphabet.indexOf c

/-- The integer denoted by a base58 string. -/
def base58Nat (s : String) : Nat :=
  s.data.foldl (fun acc c => acc * 58 + base58DigitVal c) 0

/-- `Pubkey::from_str` on a well-formed 32-byte base58 address string. -/
def pubkeyFromStr (s : String) : Pubkey := natToBEBytes 32 (base58Nat s)

/-- Byte string of an ASCII seed literal such as `b"creator_vault"`. -/
def asciiBytes (s : String) : List Nat := s.data.map Char.toNat

/-! ## Constants (`src/constants.rs`, `src/dex/pump/constants.rs`,
`src/dex/pancakeswap/mod.rs`, `src/dex/byreal/mod.rs`,
`src/dex/humidifi/mod.rs`) -/

def sol_mint : Pubkey := pubkeyFromStr "So11111111111111111111111111111111111111112"

def usdc_mint : Pubkey := pubkeyFromStr "EPjFWdd5AufqSSqeM2qN1xzybapC8G4wEGGkZwyTDt1v"

def pump_program_id : Pubkey := pubkeyFromStr "pAMMBay6oceH9fJKBRHGP5D4bD4sWpmSwMn52FMfXEA"

def pump_fee_wallet : Pubkey := pubkeyFromStr "JCRGumoE9Qi5BBgULTgdgTLjSgkCMSbF62ZZfGs84JeU"

def pump_mayhem_fee_wallet : Pubkey :=
  pubkeyFromStr "GesfTA3X2arioaHp8bbKdjG9vJtskViWACZoYvxp4twS"

def pancakeswap_program_id : Pubkey :=
  pubkeyFromStr "HpNfyc2Saw7RKkQd8nEL4khUcuPhQ7WwY1B2qjx8jxFq"

def byreal_program_id : Pubkey :=
  pubkeyFromStr "REALQqNEomY6cQGZJUGwywTBD2UmDT32rZcNnfxQ5N2"

def humidifi_program_id : Pubkey :=
  pubkeyFromStr "9H6tua7jkLhdm3w8BvgpTn5LZNU7g4ZynDmCiNN3q6Rp"

/-! ## Humidifi decoder (`src/dex/humidifi/info.rs`) -/

/-- The four per-chunk XOR keys of the obfuscated layout. -/
def XOR_KEY_0 : Nat := 0xfb5ce87aae443c38
def XOR_KEY_1 : Nat := 0x04a2178451bac3c7
def XOR_KEY_2 : Nat := 0x04a1178751b9c3c6
def XOR_KEY_3 : Nat := 0x04a0178651b8c3c5

def QUOTE_MINT_OFFSET : Nat := 0x180
def BASE_MINT_OFFSET : Nat := 0x1a0
def QUOTE_VAULT_OFFSET : Nat := 0x1c0
def BASE_VAULT_OFFSET : Nat := 0x1e0

/-- `read_u64_le` of `src/dex/humidifi/info.rs`: bounds-checked
little-endian `u64` read. -/
def read_u64_le (data : List Nat) (offset : Nat) : Option Nat :=
  if data.length < offset + 8 then none
  else some (fromLEBytes ((data.drop offset).take 8))

/-- `decode_pubkey` of `src/dex/humidifi/info.rs`: reads four `u64`
little-endian chunks at `offset`, XORs each against its key, and
reassembles the 32-byte address.  The source's in-place write loop
over `result[i*8..(i+1)*8]` is rendered as list concatenation. -/
def decode_pubkey (pool_data : List Nat) (offset : Nat) : Option Pubkey :=
  if pool_data.length < offset + 32 then none
  else do
    let c0 ← read_u64_le pool_data (offset + 0 * 8)
    let c1 ← read_u64_le pool_data (offset + 1 * 8)
    let c2 ← read_u64_le pool_data (offset + 2 * 8)
    let c3 ← read_u64_le pool_data (offset + 3 * 8)
    some (natToLEBytes 8 (c0 ^^^ XOR_KEY_0) ++ natToLEBytes 8 (c1 ^^^ XOR_KEY_1) ++
          natToLEBytes 8 (c2 ^^^ XOR_KEY_2) ++ natToLEBytes 8 (c3 ^^^ XOR_KEY_3))

structure HumidifiInfo where
  base_mint : Pubkey
  quote_mint : Pubkey
  base_vault : Pubkey
  quote_vault : Pubkey
  deriving Repr, DecidableEq

/-- `HumidifiInfo::load_checked` of `src/dex/humidifi/info.rs`. -/
def HumidifiInfo.load_checked (data : List Nat) : Except String HumidifiInfo :=
  if data.length < BASE_VAULT_OFFSET + 32 then
    .error "Invalid data length for HumidifiInfo"
  else
    match decode_pubkey data QUOTE_MINT_OFFSET with
    | none => .error "Failed to decode quote_mint"
    | some quote_mint =>
      match decode_pubkey data BASE_MINT_OFFSET with
      | none => .error "Failed to decode base_mint"
      | some base_mint =>
        match decode_pubkey data QUOTE_VAULT_OFFSET with
        | none => .error "Failed to decode quote_vault"
        | some quote_vault =>
          match decode_pubkey data BASE_VAULT_OFFSET with
          | none => .error "Failed to decode base_vault"
          | some base_vault =>
            .ok { base_mint, quote_mint, base_vault, quote_vault }

/-- Modelled from the spec: the storage-side obfuscation that
`decode_pubkey` undoes — "each 32-byte address [is stored] as four
consecutive 8-byte little-endian integers, each exclusive-ORed against
a fixed per-chunk key".  The obfuscation transform itself is not part
of the repository (it happens on chain); it is the chunk-wise XOR of a
32-byte value against `XOR_KEYS`, the same transform the decoder
applies. -/
def obfuscate_pubkey (v : List Nat) : List Nat :=
  natToLEBytes 8 (fromLEBytes ((v.drop 0).take 8) ^^^ XOR_KEY_0) ++
  natToLEBytes 8 (fromLEBytes ((v.drop 8).take 8) ^^^ XOR_KEY_1) ++
  natToLEBytes 8 (fromLEBytes ((v.drop 16).take 8) ^^^ XOR_KEY_2) ++
  natToLEBytes 8 (fromLEBytes ((v.drop 24).take 8) ^^^ XOR_KEY_3)

/-! ## Pump AMM decoder (`src/dex/pump/amm_info.rs`) -/

/-- Result of running fallible Rust code that may also panic.
`panicked` models a Rust panic (here: slice indexing out of range),
`err` an `anyhow` error value. -/
inductive DecodeResult (α : Type) where
  | ok : α → DecodeResult α
  | err : String → DecodeResult α
  | panicked : DecodeResult α
  deriving Repr, DecidableEq

def DecodeResult.isOk {α : Type} : DecodeResult α → Bool
  | .ok _ => true
  | _ => false

/-- Seed literal `b"creator_vault"`. -/
def COIN_CREATOR_VAULT_SEED : List Nat := asciiBytes "creator_vault"

structure PumpAmmInfo where
  base_mint : Pubkey
  quote_mint : Pubkey
  pool_base_token_account : Pubkey
  pool_quote_token_account : Pubkey
  coin_creator : Pubkey
  coin_creator_vault_authority : Pubkey
  is_mayhem_mode : Bool
  deriving Repr, DecidableEq

/-- The signature of `Pubkey::find_program_address`, a Solana SDK
function outside this repository: seeds and a program id to a derived
address.  The embedded functions take it as a parameter. -/
abbrev Fpa := List (List Nat) → Pubkey → Pubkey

/-- `Pubkey::new(&data[off..off + 32])` once bounds are known to hold. -/
def readPubkeyAt (data : List Nat) (off : Nat) : Pubkey :=
  (data.drop off).take 32

/-- `PumpAmmInfo::load_checked` of `src/dex/pump/amm_info.rs`.

The source begins with `let data = &data[8..];` before any length
check; in Rust this slice panics when `data.len() < 8`, which the
model renders as `panicked`.  All later reads are guarded exactly as
in the source. -/
def PumpAmmInfo.load_checked (fpa : Fpa) (data : List Nat) : DecodeResult PumpAmmInfo :=
  if data.length < 8 then .panicked
  else
    let data := data.drop 8
    let base_mint_offset := 1 + 2 + 32
    let quote_mint_offset := base_mint_offset + 32
    let pool_base_offset := quote_mint_offset + 32 + 32
    let pool_quote_offset := pool_base_offset + 32
    let min_len := pool_quote_offset + 32
    if data.length < min_len then .err "Invalid data length for PumpAmmInfo"
    else
      let base_mint := readPubkeyAt data base_mint_offset
      let quote_mint := readPubkeyAt data quote_mint_offset
      let pool_base_token_account := readPubkeyAt data pool_base_offset
      let pool_quote_token_account := readPubkeyAt data pool_quote_offset
      let coin_creator_offset := pool_quote_offset + 8 + 32
      let is_mayhem_mode_offset := coin_creator_offset + 32
      let coin_creator :=
        if data.length < coin_creator_offset + 32 then zeroPubkey
        else readPubkeyAt data coin_creator_offset
      let is_mayhem_mode :=
        if data.length ≤ is_mayhem_mode_offset then false
        else data.getD is_mayhem_mode_offset 0 ≠ 0
      let coin_creator_vault_authority :=
        if coin_creator = zeroPubkey then zeroPubkey
        else fpa [COIN_CREATOR_VAULT_SEED, coin_creator] pump_program_id
      .ok { base_mint, quote_mint, pool_base_token_account,
            pool_quote_token_account, coin_creator,
            coin_creator_vault_authority, is_mayhem_mode }

/-! ## Pool kind detection (`src/refresh.rs`) -/

/-- `MarketPoolKind` of `src/refresh.rs`. -/
inductive MarketPoolKind where
  | Pump | RaydiumV4 | RaydiumCp | RaydiumClmm | MeteoraDlmm
  | MeteoraDamm | MeteoraDammV2 | Whirlpool | Vertigo | Heaven
  deriving Repr, DecidableEq

/-- The ten venue program ids consulted by `detect_pool_kind`.  The
getters for Raydium (V4/CP/CLMM), Meteora (DLMM/DAMM/DAMM v2),
Whirlpool, Vertigo and Heaven live in `src/dex` modules that are not
part of the sources under verification, so the table is a parameter;
`pump_program_id` is the concrete constant of
`src/dex/pump/constants.rs`. -/
structure ProgramIdTable where
  pump : Pubkey
  raydiumV4 : Pubkey
  raydiumCp : Pubkey
  raydiumClmm : Pubkey
  dlmm : Pubkey
  damm : Pubkey
  dammV2 : Pubkey
  whirlpool : Pubkey
  vertigo : Pubkey
  heaven : Pubkey

/-- The list of program ids `detect_pool_kind` tests, in test order. -/
def ProgramIdTable.ids (t : ProgramIdTable) : List Pubkey :=
  [t.pump, t.raydiumV4, t.raydiumCp, t.raydiumClmm, t.dlmm,
   t.damm, t.dammV2, t.whirlpool, t.vertigo, t.heaven]

/-- `detect_pool_kind` of `src/refresh.rs`: classify an account by its
owner program id through a chain of equality tests. -/
def detect_pool_kind (t : ProgramIdTable) (owner : Pubkey) : Option MarketPoolKind :=
  if owner = t.pump then some .Pump
  else if owner = t.raydiumV4 then some .RaydiumV4
  else if owner = t.raydiumCp then some .RaydiumCp
  else if owner = t.raydiumClmm then some .RaydiumClmm
  else if owner = t.dlmm then some .MeteoraDlmm
  else if owner = t.damm then some .MeteoraDamm
  else if owner = t.dammV2 then some .MeteoraDammV2
  else if owner = t.whirlpool then some .Whirlpool
  else if owner = t.vertigo then some .Vertigo
  else if owner = t.heaven then some .Heaven
  else none

/-! ## Decoded pool records of the other venues

The decoders of these venues live in `src/dex` modules that are not
part of the sources under verification; `src/refresh.rs` only uses the
listed fields of their results.  Each structure carries the fields the
embedded `refresh.rs` logic reads, under their source names, and the
decoding functions themselves are parameters (`DexDecoders`). -/

structure RaydiumAmmInfo where
  coin_mint : Pubkey
  pc_mint : Pubkey
  coin_vault : Pubkey
  pc_vault : Pubkey
  deriving Repr, DecidableEq

structure RaydiumCpAmmInfo where
  token_0_mint : Pubkey
  token_1_mint : Pubkey
  token_0_vault : Pubkey
  token_1_vault : Pubkey
  amm_config : Pubkey
  observation_key : Pubkey
  deriving Repr, DecidableEq

structure PoolState where
  token_mint_0 : Pubkey
  token_mint_1 : Pubkey
  token_vault_0 : Pubkey
  token_vault_1 : Pubkey
  amm_config : Pubkey
  observation_key : Pubkey
  tick_current : Int
  tick_spacing : Nat
  deriving Repr, DecidableEq

structure DlmmInfo where
  token_x_mint : Pubkey
  token_y_mint : Pubkey
  oracle : Pubkey
  active_id : Int
  deriving Repr, DecidableEq

structure MeteoraDammPool where
  token_a_mint : Pubkey
  token_b_mint : Pubkey
  a_vault : Pubkey
  b_vault : Pubkey
  a_vault_lp : Pubkey
  b_vault_lp : Pubkey
  admin_token_a_fee : Pubkey
  admin_token_b_fee : Pubkey
  deriving Repr, DecidableEq

structure MeteoraVault where
  token_vault : Pubkey
  lp_mint : Pubkey
  deriving Repr, DecidableEq

structure MeteoraDAmmV2Info where
  base_mint : Pubkey
  quote_mint : Pubkey
  base_vault : Pubkey
  quote_vault : Pubkey
  deriving Repr, DecidableEq

structure Whirlpool where
  token_mint_a : Pubkey
  token_mint_b : Pubkey
  token_vault_a : Pubkey
  token_vault_b : Pubkey
  tick_current_index : Int
  deriving Repr, DecidableEq

structure VertigoInfo where
  mint_a : Pubkey
  mint_b : Pubkey
  pool : Pubkey
  deriving Repr, DecidableEq

structure HeavenPoolState where
  mint_a : Pubkey
  mint_b : Pubkey
  vault_a : Pubkey
  vault_b : Pubkey
  protocol_config : Pubkey
  reserve_a : Nat
  reserve_b : Nat
  deriving Repr, DecidableEq

/-- The decode functions of the venues whose `src/dex` modules are not
among the sources under verification, plus the fallible derived-address
helpers they export.  `src/refresh.rs` and `src/pool_refreshers.rs`
call these; they are parameters of the embedding. -/
structure DexDecoders where
  raydiumLoad : List Nat → Except String RaydiumAmmInfo
  raydiumCpLoad : List Nat → Except String RaydiumCpAmmInfo
  poolStateLoad : List Nat → Except String PoolState
  dlmmLoad : List Nat → Except String DlmmInfo
  dammDeserialize : List Nat → Except String MeteoraDammPool
  vaultDeserialize : List Nat → Except String MeteoraVault
  dammV2Load : List Nat → Except String MeteoraDAmmV2Info
  whirlpoolDeserialize : List Nat → Except String Whirlpool
  vertigoLoad : List Nat → Pubkey → Except String VertigoInfo
  heavenParse : List Nat → Option HeavenPoolState
  dlmmVaults : DlmmInfo → Pubkey → Pubkey → Pubkey × Pubkey
  dlmmBinArrays : DlmmInfo → Pubkey → Except String (List Pubkey)
  whirlpoolTickArrays : Whirlpool → Pubkey → Pubkey → List Pubkey
  tickArrayPubkeys : Pubkey → Int → Nat → List Int → Pubkey → Except String (List Pubkey)

/-! ## Traded-mint extraction (`extract_token_mint`, `src/refresh.rs`) -/

/-- `extract_token_mint` of `src/refresh.rs`: decode the account data
for the given venue kind and return the mint of the side that is not
the anchor asset (`sol_mint`, additionally `usdc_mint` for Heaven), or
`none` when neither side is an anchor. -/
def extract_token_mint (fpa : Fpa) (env : DexDecoders) (kind : MarketPoolKind)
    (data : List Nat) (pool_pubkey : Pubkey) : DecodeResult (Option Pubkey) :=
  let sol := sol_mint
  match kind with
  | .Pump =>
    match PumpAmmInfo.load_checked fpa data with
    | .panicked => .panicked
    | .err e => .err e
    | .ok info =>
      if info.base_mint = sol then .ok (some info.quote_mint)
      else if info.quote_mint = sol then .ok (some info.base_mint)
      else .ok none
  | .RaydiumV4 =>
    match env.raydiumLoad data with
    | .error e => .err e
    | .ok info =>
      if info.coin_mint = sol then .ok (some info.pc_mint)
      else if info.pc_mint = sol then .ok (some info.coin_mint)
      else .ok none
  | .RaydiumCp =>
    match env.raydiumCpLoad data with
    | .error e => .err e
    | .ok info =>
      if info.token_0_mint = sol then .ok (some info.token_1_mint)
      else if info.token_1_mint = sol then .ok (some info.token_0_mint)
      else .ok none
  | .RaydiumClmm =>
    match env.poolStateLoad data with
    | .error e => .err e
    | .ok info =>
      if info.token_mint_0 = sol then .ok (some info.token_mint_1)
      else if info.token_mint_1 = sol then .ok (some info.token_mint_0)
      else .ok none
  | .MeteoraDlmm =>
    match env.dlmmLoad data with
    | .error e => .err e
    | .ok info =>
      if info.token_x_mint = sol then .ok (some info.token_y_mint)
      else if info.token_y_mint = sol then .ok (some info.token_x_mint)
      else .ok none
  | .MeteoraDamm =>
    match env.dammDeserialize data with
    | .error e => .err e
    | .ok pool =>
      if pool.token_a_mint = sol then .ok (some pool.token_b_mint)
      else if pool.token_b_mint = sol then .ok (some pool.token_a_mint)
      else .ok none
  | .MeteoraDammV2 =>
    match env.dammV2Load data with
    | .error e => .err e
    | .ok info =>
      if info.base_mint = sol then .ok (some info.quote_mint)
      else if info.quote_mint = sol then .ok (some info.base_mint)
      else .ok none
  | .Whirlpool =>
    match env.whirlpoolDeserialize data with
    | .error e => .err e
    | .ok whirlpool =>
      if whirlpool.token_mint_a = sol then .ok (some whirlpool.token_mint_b)
      else if whirlpool.token_mint_b = sol then .ok (some whirlpool.token_mint_a)
      else .ok none
  | .Vertigo =>
    match env.vertigoLoad data pool_pubkey with
    | .error e => .err e
    | .ok info =>
      if info.mint_a = sol then .ok (some info.mint_b)
      else if info.mint_b = sol then .ok (some info.mint_a)
      else .ok none
  | .Heaven =>
    match env.heavenParse data with
    | none => .err "Failed to parse Heaven pool"
    | some info =>
      if info.mint_a = sol ∨ info.mint_a = usdc_mint then .ok (some info.mint_b)
      else if info.mint_b = sol ∨ info.mint_b = usdc_mint then .ok (some info.mint_a)
      else .ok none

/-- The two mint sides of the decoded pool, in the order in which
`extract_token_mint` compares them, when decoding succeeds. -/
def decodedSides (fpa : Fpa) (env : DexDecoders) (kind : MarketPoolKind)
    (data : List Nat) (pool_pubkey : Pubkey) : Option (Pubkey × Pubkey) :=
  match kind with
  | .Pump =>
    match PumpAmmInfo.load_checked fpa data with
    | .ok info => some (info.base_mint, info.quote_mint)
    | _ => none
  | .RaydiumV4 =>
    match env.raydiumLoad data with
    | .ok info => some (info.coin_mint, info.pc_mint)
    | _ => none
  | .RaydiumCp =>
    match env.raydiumCpLoad data with
    | .ok info => some (info.token_0_mint, info.token_1_mint)
    | _ => none
  | .RaydiumClmm =>
    match env.poolStateLoad data with
    | .ok info => some (info.token_mint_0, info.token_mint_1)
    | _ => none
  | .MeteoraDlmm =>
    match env.dlmmLoad data with
    | .ok info => some (info.token_x_mint, info.token_y_mint)
    | _ => none
  | .MeteoraDamm =>
    match env.dammDeserialize data with
    | .ok pool => some (pool.token_a_mint, pool.token_b_mint)
    | _ => none
  | .MeteoraDammV2 =>
    match env.dammV2Load data with
    | .ok info => some (info.base_mint, info.quote_mint)
    | _ => none
  | .Whirlpool =>
    match env.whirlpoolDeserialize data with
    | .ok whirlpool => some (whirlpool.token_mint_a, whirlpool.token_mint_b)
    | _ => none
  | .Vertigo =>
    match env.vertigoLoad data pool_pubkey with
    | .ok info => some (info.mint_a, info.mint_b)
    | _ => none
  | .Heaven =>
    match env.heavenParse data with
    | some info => some (info.mint_a, info.mint_b)
    | none => none

/-- The anchor mints accepted for a venue kind: SOL for nine venues,
SOL or USDC for Heaven. -/
def anchors (kind : MarketPoolKind) : List Pubkey :=
  match kind with
  | .Heaven => [sol_mint, usdc_mint]
  | _ => [sol_mint]

/-! ## Registered pool records (`src/pools.rs`)

One structure per venue, with the source field names.  Only the pools
relevant to the claims carry all fields; vault and fee fields are kept
so that the registration model fills them as the source does. -/

structure PumpPool where
  pool : Pubkey
  token_vault : Pubkey
  sol_vault : Pubkey
  fee_wallet : Pubkey
  fee_token_wallet : Pubkey
  coin_creator_vault_ata : Pubkey
  coin_creator_vault_authority : Pubkey
  token_mint : Pubkey
  base_mint : Pubkey
  is_mayhem_mode : Bool
  deriving Repr, DecidableEq

structure RaydiumPool where
  pool : Pubkey
  token_vault : Pubkey
  sol_vault : Pubkey
  token_mint : Pubkey
  base_mint : Pubkey
  deriving Repr, DecidableEq

structure RaydiumCpPool where
  pool : Pubkey
  token_vault : Pubkey
  sol_vault : Pubkey
  amm_config : Pubkey
  observation : Pubkey
  token_mint : Pubkey
  base_mint : Pubkey
  deriving Repr, DecidableEq

structure DlmmPool where
  pair : Pubkey
  token_vault : Pubkey
  sol_vault : Pubkey
  oracle : Pubkey
  bin_arrays : List Pubkey
  token_mint : Pubkey
  base_mint : Pubkey
  deriving Repr, DecidableEq

structure WhirlpoolPool where
  pool : Pubkey
  oracle : Pubkey
  x_vault : Pubkey
  y_vault : Pubkey
  tick_arrays : List Pubkey
  token_mint : Pubkey
  base_mint : Pubkey
  deriving Repr, DecidableEq

structure RaydiumClmmPool where
  pool : Pubkey
  amm_config : Pubkey
  observation_state : Pubkey
  bitmap_extension : Pubkey
  x_vault : Pubkey
  y_vault : Pubkey
  tick_arrays : List Pubkey
  token_mint : Pubkey
  base_mint : Pubkey
  deriving Repr, DecidableEq

structure MeteoraDAmmPool where
  pool : Pubkey
  token_x_vault : Pubkey
  token_sol_vault : Pubkey
  token_x_token_vault : Pubkey
  token_sol_token_vault : Pubkey
  token_x_lp_mint : Pubkey
  token_sol_lp_mint : Pubkey
  token_x_pool_lp : Pubkey
  token_sol_pool_lp : Pubkey
  admin_token_fee_x : Pubkey
  admin_token_fee_sol : Pubkey
  token_mint : Pubkey
  base_mint : Pubkey
  deriving Repr, DecidableEq

structure MeteoraDAmmV2Pool where
  pool : Pubkey
  token_x_vault : Pubkey
  token_sol_vault : Pubkey
  token_mint : Pubkey
  base_mint : Pubkey
  deriving Repr, DecidableEq

structure VertigoPool where
  pool : Pubkey
  pool_owner : Pubkey
  token_x_vault : Pubkey
  token_sol_vault : Pubkey
  token_mint : Pubkey
  base_mint : Pubkey
  deriving Repr, DecidableEq

structure HeavenPool where
  pool : Pubkey
  protocol_config : Pubkey
  token_x_vault : Pubkey
  token_base_vault : Pubkey
  token_mint : Pubkey
  base_mint : Pubkey
  token_program : Pubkey
  deriving Repr, DecidableEq

/-! ## Registration loops of `initialize_pool_data` (`src/refresh.rs`)

Each venue section of `initialize_pool_data` is a loop over configured
pool addresses: fetch the account, check its owner, decode, run
venue-specific checks, and push a record into the registry entry; on
the various failures the source either returns the error (aborting the
whole registration) or logs and `continue`s.  The per-pool body is
modelled as a step function returning `StepOut`, and the loop as
`processPools`, which aborts on `fail` and skips on `skip`.

`rpc_client.get_account` is a parameter `rpc : Pubkey → Except String
Account`; `get_associated_token_address` is a parameter `ata`; the
address-derivation helpers of the missing `src/dex` modules
(`derive_vault_address`, the CLMM bitmap-extension derivation) are
parameters `deriveVault` and `bitmapExtension`.  Pool address strings
are modelled as already-parsed `Pubkey`s. -/

structure Account where
  owner : Pubkey
  data : List Nat
  deriving Repr, DecidableEq

abbrev Rpc := Pubkey → Except String Account

abbrev Ata := Pubkey → Pubkey → Pubkey

/-- Outcome of one iteration of a registration loop: register a
record, skip the pool (`continue`), abort with an error (`return
Err`), or propagate a panic. -/
inductive StepOut (ρ : Type) where
  | add : ρ → StepOut ρ
  | skip : StepOut ρ
  | fail : String → StepOut ρ
  | panicked : StepOut ρ
  deriving Repr, DecidableEq

/-- Run a registration loop: `fail` aborts the whole registration,
`skip` moves on, `add` appends to the venue's vector. -/
def processPools {ρ : Type} (step : Pubkey → StepOut ρ) : List Pubkey → DecodeResult (List ρ)
  | [] => .ok []
  | p :: rest =>
    match step p with
    | .panicked => .panicked
    | .fail e => .err e
    | .skip => processPools step rest
    | .add r =>
      match processPools step rest with
      | .ok rs => .ok (r :: rs)
      | .err e => .err e
      | .panicked => .panicked

/-- The Pump section of `initialize_pool_data` (one pool): fetch error,
owner mismatch and decode error all abort; on success the record's
`token_mint`/`base_mint` are assigned by comparing the entry's key mint
against the decoded `base_mint`. -/
def process_pump_pool (fpa : Fpa) (ata : Ata) (rpc : Rpc) (mint_pubkey : Pubkey)
    (pool_address : Pubkey) : StepOut PumpPool :=
  match rpc pool_address with
  | .error _ => .fail "Error fetching Pump pool account"
  | .ok account =>
    if account.owner ≠ pump_program_id then
      .fail "Pump pool account is not owned by the Pump program"
    else
      match PumpAmmInfo.load_checked fpa account.data with
      | .panicked => .panicked
      | .err e => .fail e
      | .ok amm_info =>
        let sv := if sol_mint = amm_info.base_mint then
            (amm_info.pool_base_token_account, amm_info.pool_quote_token_account)
          else if sol_mint = amm_info.quote_mint then
            (amm_info.pool_quote_token_account, amm_info.pool_base_token_account)
          else
            (amm_info.pool_quote_token_account, amm_info.pool_base_token_account)
        let fw := if amm_info.is_mayhem_mode then
            (pump_mayhem_fee_wallet, ata pump_mayhem_fee_wallet amm_info.quote_mint)
          else
            (pump_fee_wallet, ata pump_fee_wallet amm_info.quote_mint)
        let coin_creator_vault_ata :=
          ata amm_info.coin_creator_vault_authority amm_info.quote_mint
        let tb := if mint_pubkey = amm_info.base_mint then
            (amm_info.base_mint, amm_info.quote_mint)
          else
            (amm_info.quote_mint, amm_info.base_mint)
        .add { pool := pool_address, token_vault := sv.2, sol_vault := sv.1,
               fee_wallet := fw.1, fee_token_wallet := fw.2,
               coin_creator_vault_ata,
               coin_creator_vault_authority := amm_info.coin_creator_vault_authority,
               token_mint := tb.1, base_mint := tb.2,
               is_mayhem_mode := amm_info.is_mayhem_mode }

/-- The Raydium V4 section of `initialize_pool_data` (one pool): fetch
error, owner mismatch, decode error, key mint absent and SOL absent
all abort. -/
def process_raydium_pool (env : DexDecoders) (t : ProgramIdTable) (rpc : Rpc)
    (mint_pubkey : Pubkey) (pool_address : Pubkey) : StepOut RaydiumPool :=
  match rpc pool_address with
  | .error _ => .fail "Error fetching Raydium pool account"
  | .ok account =>
    if account.owner ≠ t.raydiumV4 then
      .fail "Raydium pool account is not owned by the Raydium program"
    else
      match env.raydiumLoad account.data with
      | .error e => .fail e
      | .ok amm_info =>
        if amm_info.coin_mint ≠ mint_pubkey ∧ amm_info.pc_mint ≠ mint_pubkey then
          .fail "Invalid Raydium pool"
        else if amm_info.coin_mint ≠ sol_mint ∧ amm_info.pc_mint ≠ sol_mint then
          .fail "SOL is not present in Raydium pool"
        else
          let sv := if sol_mint = amm_info.coin_mint then
              (amm_info.coin_vault, amm_info.pc_vault)
            else
              (amm_info.pc_vault, amm_info.coin_vault)
          let tb := if mint_pubkey = amm_info.coin_mint then
              (amm_info.coin_mint, amm_info.pc_mint)
            else
              (amm_info.pc_mint, amm_info.coin_mint)
          .add { pool := pool_address, token_vault := sv.2, sol_vault := sv.1,
                 token_mint := tb.1, base_mint := tb.2 }

/-- The Raydium CP section of `initialize_pool_data` (one pool): fetch
error, owner mismatch, decode error, key mint absent and SOL absent
all abort. -/
def process_raydium_cp_pool (env : DexDecoders) (t : ProgramIdTable) (rpc : Rpc)
    (mint_pubkey : Pubkey) (pool_address : Pubkey) : StepOut RaydiumCpPool :=
  match rpc pool_address with
  | .error _ => .fail "Error fetching Raydium CP pool account"
  | .ok account =>
    if account.owner ≠ t.raydiumCp then
      .fail "Raydium CP pool account is not owned by the Raydium CP program"
    else
      match env.raydiumCpLoad account.data with
      | .error e => .fail e
      | .ok amm_info =>
        if amm_info.token_0_mint ≠ mint_pubkey ∧ amm_info.token_1_mint ≠ mint_pubkey then
          .fail "Invalid Raydium CP pool"
        else if sol_mint = amm_info.token_0_mint then
          let tb := if mint_pubkey = amm_info.token_0_mint then
              (amm_info.token_0_mint, amm_info.token_1_mint)
            else
              (amm_info.token_1_mint, amm_info.token_0_mint)
          .add { pool := pool_address, token_vault := amm_info.token_1_vault,
                 sol_vault := amm_info.token_0_vault,
                 amm_config := amm_info.amm_config,
                 observation := amm_info.observation_key,
                 token_mint := tb.1, base_mint := tb.2 }
        else if sol_mint = amm_info.token_1_mint then
          let tb := if mint_pubkey = amm_info.token_0_mint then
              (amm_info.token_0_mint, amm_info.token_1_mint)
            else
              (amm_info.token_1_mint, amm_info.token_0_mint)
          .add { pool := pool_address, token_vault := amm_info.token_0_vault,
                 sol_vault := amm_info.token_1_vault,
                 amm_config := amm_info.amm_config,
                 observation := amm_info.observation_key,
                 token_mint := tb.1, base_mint := tb.2 }
        else
          .fail "SOL is not present in Raydium CP pool"

/-- The DLMM section of `initialize_pool_data` (one pool): fetch error,
owner mismatch, decode error and bin-array computation error all
abort. -/
def process_dlmm_pool (env : DexDecoders) (t : ProgramIdTable) (rpc : Rpc)
    (mint_pubkey : Pubkey) (pool_address : Pubkey) : StepOut DlmmPool :=
  match rpc pool_address with
  | .error _ => .fail "Error fetching DLMM pool account"
  | .ok account =>
    if account.owner ≠ t.dlmm then
      .fail "DLMM pool account is not owned by the DLMM program"
    else
      match env.dlmmLoad account.data with
      | .error e => .fail e
      | .ok amm_info =>
        let vv := env.dlmmVaults amm_info mint_pubkey sol_mint
        match env.dlmmBinArrays amm_info pool_address with
        | .error e => .fail e
        | .ok bin_arrays =>
          let tb := if mint_pubkey = amm_info.token_x_mint then
              (amm_info.token_x_mint, amm_info.token_y_mint)
            else
              (amm_info.token_y_mint, amm_info.token_x_mint)
          .add { pair := pool_address, token_vault := vv.1, sol_vault := vv.2,
                 oracle := amm_info.oracle, bin_arrays,
                 token_mint := tb.1, base_mint := tb.2 }

/-- The Whirlpool section of `initialize_pool_data` (one pool): fetch
error, owner mismatch, decode error, key mint absent and SOL absent
all abort. -/
def process_whirlpool_pool (fpa : Fpa) (env : DexDecoders) (t : ProgramIdTable)
    (rpc : Rpc) (mint_pubkey : Pubkey) (pool_address : Pubkey) : StepOut WhirlpoolPool :=
  match rpc pool_address with
  | .error _ => .fail "Error fetching Whirlpool pool account"
  | .ok account =>
    if account.owner ≠ t.whirlpool then
      .fail "Whirlpool pool account is not owned by the Whirlpool program"
    else
      match env.whirlpoolDeserialize account.data with
      | .error _ => .fail "Error parsing Whirlpool data"
      | .ok whirlpool =>
        if whirlpool.token_mint_a ≠ mint_pubkey ∧ whirlpool.token_mint_b ≠ mint_pubkey then
          .fail "Invalid Whirlpool pool"
        else if sol_mint = whirlpool.token_mint_a then
          let oracle := fpa [asciiBytes "oracle", pool_address] t.whirlpool
          let tick_arrays := env.whirlpoolTickArrays whirlpool pool_address t.whirlpool
          let tb := if mint_pubkey = whirlpool.token_mint_a then
              (whirlpool.token_mint_a, whirlpool.token_mint_b)
            else
              (whirlpool.token_mint_b, whirlpool.token_mint_a)
          .add { pool := pool_address, oracle, x_vault := whirlpool.token_vault_b,
                 y_vault := whirlpool.token_vault_a, tick_arrays,
                 token_mint := tb.1, base_mint := tb.2 }
        else if sol_mint = whirlpool.token_mint_b then
          let oracle := fpa [asciiBytes "oracle", pool_address] t.whirlpool
          let tick_arrays := env.whirlpoolTickArrays whirlpool pool_address t.whirlpool
          let tb := if mint_pubkey = whirlpool.token_mint_a then
              (whirlpool.token_mint_a, whirlpool.token_mint_b)
            else
              (whirlpool.token_mint_b, whirlpool.token_mint_a)
          .add { pool := pool_address, oracle, x_vault := whirlpool.token_vault_a,
                 y_vault := whirlpool.token_vault_b, tick_arrays,
                 token_mint := tb.1, base_mint := tb.2 }
        else
          .fail "SOL is not present in Whirlpool pool"

/-- The Raydium CLMM section of `initialize_pool_data` (one pool):
fetch error, owner mismatch, decode error, key mint absent and SOL
absent are all logged and skipped (`continue`); only the tick-array
derivation error aborts (it is propagated with `?` in the source). -/
def process_raydium_clmm_pool (env : DexDecoders) (t : ProgramIdTable)
    (bitmapExtension : Pubkey → Pubkey) (rpc : Rpc) (mint_pubkey : Pubkey)
    (pool_address : Pubkey) : StepOut RaydiumClmmPool :=
  match rpc pool_address with
  | .error _ => .skip
  | .ok account =>
    if account.owner ≠ t.raydiumClmm then .skip
    else
      match env.poolStateLoad account.data with
      | .error _ => .skip
      | .ok raydium_clmm =>
        if raydium_clmm.token_mint_0 ≠ mint_pubkey ∧
            raydium_clmm.token_mint_1 ≠ mint_pubkey then .skip
        else if sol_mint = raydium_clmm.token_mint_0 then
          match env.tickArrayPubkeys pool_address raydium_clmm.tick_current
              raydium_clmm.tick_spacing [-1, 0, 1] t.raydiumClmm with
          | .error e => .fail e
          | .ok tick_arrays =>
            let tb := if mint_pubkey = raydium_clmm.token_mint_0 then
                (raydium_clmm.token_mint_0, raydium_clmm.token_mint_1)
              else
                (raydium_clmm.token_mint_1, raydium_clmm.token_mint_0)
            .add { pool := pool_address, amm_config := raydium_clmm.amm_config,
                   observation_state := raydium_clmm.observation_key,
                   bitmap_extension := bitmapExtension pool_address,
                   x_vault := raydium_clmm.token_vault_1,
                   y_vault := raydium_clmm.token_vault_0, tick_arrays,
                   token_mint := tb.1, base_mint := tb.2 }
        else if sol_mint = raydium_clmm.token_mint_1 then
          match env.tickArrayPubkeys pool_address raydium_clmm.tick_current
              raydium_clmm.tick_spacing [-1, 0, 1] t.raydiumClmm with
          | .error e => .fail e
          | .ok tick_arrays =>
            let tb := if mint_pubkey = raydium_clmm.token_mint_0 then
                (raydium_clmm.token_mint_0, raydium_clmm.token_mint_1)
              else
                (raydium_clmm.token_mint_1, raydium_clmm.token_mint_0)
            .add { pool := pool_address, amm_config := raydium_clmm.amm_config,
                   observation_state := raydium_clmm.observation_key,
                   bitmap_extension := bitmapExtension pool_address,
                   x_vault := raydium_clmm.token_vault_0,
                   y_vault := raydium_clmm.token_vault_1, tick_arrays,
                   token_mint := tb.1, base_mint := tb.2 }
        else
          .skip

/-- The Meteora DAMM section of `initialize_pool_data` (one pool):
fetch error, owner mismatch, decode error, key mint absent, SOL
absent, and the two vault-account fetch/deserialize errors all
abort. -/
def process_meteora_damm_pool (env : DexDecoders) (t : ProgramIdTable) (rpc : Rpc)
    (mint_pubkey : Pubkey) (pool_address : Pubkey) : StepOut MeteoraDAmmPool :=
  match rpc pool_address with
  | .error _ => .fail "Error fetching Meteora DAMM pool account"
  | .ok account =>
    if account.owner ≠ t.damm then
      .fail "Meteora DAMM pool account is not owned by the Meteora DAMM program"
    else
      match env.dammDeserialize account.data with
      | .error _ => .fail "Error parsing Meteora DAMM pool data"
      | .ok pool =>
        if pool.token_a_mint ≠ mint_pubkey ∧ pool.token_b_mint ≠ mint_pubkey then
          .fail "Invalid Meteora DAMM pool"
        else if pool.token_a_mint ≠ sol_mint ∧ pool.token_b_mint ≠ sol_mint then
          .fail "SOL is not present in Meteora DAMM pool"
        else
          let xv := if sol_mint = pool.token_a_mint then
              (pool.b_vault, pool.a_vault)
            else
              (pool.a_vault, pool.b_vault)
          match rpc xv.1 with
          | .error e => .fail e
          | .ok x_vault_data =>
            match rpc xv.2 with
            | .error e => .fail e
            | .ok sol_vault_data =>
              match env.vaultDeserialize x_vault_data.data with
              | .error e => .fail e
              | .ok x_vault_obj =>
                match env.vaultDeserialize sol_vault_data.data with
                | .error e => .fail e
                | .ok sol_vault_obj =>
                  let lp := if sol_mint = pool.token_a_mint then
                      (pool.b_vault_lp, pool.a_vault_lp)
                    else
                      (pool.a_vault_lp, pool.b_vault_lp)
                  let fee := if sol_mint = pool.token_a_mint then
                      (pool.admin_token_b_fee, pool.admin_token_a_fee)
                    else
                      (pool.admin_token_a_fee, pool.admin_token_b_fee)
                  let tb := if mint_pubkey = pool.token_a_mint then
                      (pool.token_a_mint, pool.token_b_mint)
                    else
                      (pool.token_b_mint, pool.token_a_mint)
                  .add { pool := pool_address, token_x_vault := xv.1,
                         token_sol_vault := xv.2,
                         token_x_token_vault := x_vault_obj.token_vault,
                         token_sol_token_vault := sol_vault_obj.token_vault,
                         token_x_lp_mint := x_vault_obj.lp_mint,
                         token_sol_lp_mint := sol_vault_obj.lp_mint,
                         token_x_pool_lp := lp.1, token_sol_pool_lp := lp.2,
                         admin_token_fee_x := fee.1, admin_token_fee_sol := fee.2,
                         token_mint := tb.1, base_mint := tb.2 }

/-- The Meteora DAMM v2 section of `initialize_pool_data` (one pool):
fetch error, owner mismatch and decode error are all logged and
skipped (`continue`). -/
def process_meteora_damm_v2_pool (env : DexDecoders) (t : ProgramIdTable) (rpc : Rpc)
    (mint_pubkey : Pubkey) (pool_address : Pubkey) : StepOut MeteoraDAmmV2Pool :=
  match rpc pool_address with
  | .error _ => .skip
  | .ok account =>
    if account.owner ≠ t.dammV2 then .skip
    else
      match env.dammV2Load account.data with
      | .error _ => .skip
      | .ok info =>
        let token_x_vault := if sol_mint = info.base_mint then
            info.quote_vault
          else
            info.base_vault
        let token_sol_vault := if sol_mint = info.base_mint then
            info.base_vault
          else
            info.quote_vault
        let tb := if mint_pubkey = info.base_mint then
            (info.base_mint, info.quote_mint)
          else
            (info.quote_mint, info.base_mint)
        .add { pool := pool_address, token_x_vault, token_sol_vault,
               token_mint := tb.1, base_mint := tb.2 }

/-- The Vertigo section of `initialize_pool_data` (one pool): fetch
error and decode error are logged and skipped (`continue`), but an
owner mismatch aborts.  `derive_vault_address` of the missing Vertigo
module is the parameter `deriveVault`. -/
def process_vertigo_pool (env : DexDecoders) (t : ProgramIdTable)
    (deriveVault : Pubkey → Pubkey → Pubkey) (rpc : Rpc) (mint_pubkey : Pubkey)
    (pool_address : Pubkey) : StepOut VertigoPool :=
  match rpc pool_address with
  | .error _ => .skip
  | .ok account =>
    if account.owner ≠ t.vertigo then
      .fail "Vertigo pool account is not owned by the Vertigo program"
    else
      match env.vertigoLoad account.data pool_address with
      | .error _ => .skip
      | .ok vertigo_info =>
        let non_base_vault := if mint_pubkey = vertigo_info.mint_a then
            deriveVault pool_address vertigo_info.mint_b
          else
            deriveVault pool_address vertigo_info.mint_a
        let base_vault := if mint_pubkey = vertigo_info.mint_a then
            deriveVault pool_address vertigo_info.mint_a
          else
            deriveVault pool_address vertigo_info.mint_b
        let tb := if mint_pubkey = vertigo_info.mint_a then
            (vertigo_info.mint_a, vertigo_info.mint_b)
          else
            (vertigo_info.mint_b, vertigo_info.mint_a)
        .add { pool := pool_address, pool_owner := vertigo_info.pool,
               token_x_vault := base_vault, token_sol_vault := non_base_vault,
               token_mint := tb.1, base_mint := tb.2 }

/-- The Heaven section of `initialize_pool_data` (one pool): a fetch
error is logged and skipped (`continue`); owner mismatch, parse
failure and a base mint that is neither SOL nor USDC abort. -/
def process_heaven_pool (env : DexDecoders) (t : ProgramIdTable) (rpc : Rpc)
    (mint_pubkey : Pubkey) (token_program : Pubkey) (pool_address : Pubkey) :
    StepOut HeavenPool :=
  match rpc pool_address with
  | .error _ => .skip
  | .ok account =>
    if account.owner ≠ t.heaven then
      .fail "Heaven pool account is not owned by the Heaven program"
    else
      match env.heavenParse account.data with
      | none => .fail "Failed to parse Heaven pool data"
      | some heaven_info =>
        let vv := if mint_pubkey = heaven_info.mint_a then
            (heaven_info.vault_a, heaven_info.vault_b)
          else
            (heaven_info.vault_b, heaven_info.vault_a)
        let tb := if mint_pubkey = heaven_info.mint_a then
            (heaven_info.mint_a, heaven_info.mint_b)
          else
            (heaven_info.mint_b, heaven_info.mint_a)
        if tb.2 ≠ sol_mint ∧ tb.2 ≠ usdc_mint then
          .fail "Invalid Heaven pool: Expected SOL or USDC as base mint"
        else
          .add { pool := pool_address, protocol_config := heaven_info.protocol_config,
                 token_x_vault := vv.1, token_base_vault := vv.2,
                 token_mint := tb.1, base_mint := tb.2, token_program }

/-! ## Pool refreshers (`src/pool_refreshers.rs`)

Each refresher iterates its venue's vector with `iter_mut`, re-fetches
the pool account, re-decodes, recomputes the bucket (bin/tick array)
address list, and overwrites the stored list only when every step
succeeded; every failure arm only logs.  The in-place mutation is
modelled as `List.map` of a step function, and each refresher always
returns `Ok`. -/

/-- Per-pool body of `refresh_dlmm_pools`. -/
def refresh_dlmm_step (rpc : Rpc) (env : DexDecoders) (pool : DlmmPool) : DlmmPool :=
  match rpc pool.pair with
  | .error _ => pool
  | .ok account =>
    match env.dlmmLoad account.data with
    | .error _ => pool
    | .ok dlmm_info =>
      match env.dlmmBinArrays dlmm_info pool.pair with
      | .error _ => pool
      | .ok new_bin_arrays => { pool with bin_arrays := new_bin_arrays }

/-- `refresh_dlmm_pools` of `src/pool_refreshers.rs`. -/
def refresh_dlmm_pools (rpc : Rpc) (env : DexDecoders) (pools : List DlmmPool) :
    Except String (List DlmmPool) :=
  .ok (pools.map (refresh_dlmm_step rpc env))

/-- Per-pool body of `refresh_whirlpool_pools`. -/
def refresh_whirlpool_step (rpc : Rpc) (env : DexDecoders) (program_id : Pubkey)
    (pool : WhirlpoolPool) : WhirlpoolPool :=
  match rpc pool.pool with
  | .error _ => pool
  | .ok account =>
    match env.whirlpoolDeserialize account.data with
    | .error _ => pool
    | .ok whirlpool =>
      { pool with tick_arrays := env.whirlpoolTickArrays whirlpool pool.pool program_id }

/-- `refresh_whirlpool_pools` of `src/pool_refreshers.rs`. -/
def refresh_whirlpool_pools (rpc : Rpc) (env : DexDecoders) (program_id : Pubkey)
    (pools : List WhirlpoolPool) : Except String (List WhirlpoolPool) :=
  .ok (pools.map (refresh_whirlpool_step rpc env program_id))

/-- Per-pool body shared (textually duplicated in the source) by
`refresh_raydium_clmm_pools`, `refresh_pancakeswap_pools` and
`refresh_byreal_pools`, which differ only in the program id passed
in. -/
def refresh_clmm_step (rpc : Rpc) (env : DexDecoders) (program_id : Pubkey)
    (pool : RaydiumClmmPool) : RaydiumClmmPool :=
  match rpc pool.pool with
  | .error _ => pool
  | .ok account =>
    if account.owner ≠ program_id then pool
    else
      match env.poolStateLoad account.data with
      | .error _ => pool
      | .ok pool_state =>
        match env.tickArrayPubkeys pool.pool pool_state.tick_current
            pool_state.tick_spacing [-1, 0, 1] program_id with
        | .error _ => pool
        | .ok tick_arrays => { pool with tick_arrays }

/-- `refresh_raydium_clmm_pools` of `src/pool_refreshers.rs`. -/
def refresh_raydium_clmm_pools (rpc : Rpc) (env : DexDecoders) (program_id : Pubkey)
    (pools : List RaydiumClmmPool) : Except String (List RaydiumClmmPool) :=
  .ok (pools.map (refresh_clmm_step rpc env program_id))

/-- `refresh_pancakeswap_pools` of `src/pool_refreshers.rs` (same CLMM
layout as Raydium). -/
def refresh_pancakeswap_pools (rpc : Rpc) (env : DexDecoders) (program_id : Pubkey)
    (pools : List RaydiumClmmPool) : Except String (List RaydiumClmmPool) :=
  .ok (pools.map (refresh_clmm_step rpc env program_id))

/-- `refresh_byreal_pools` of `src/pool_refreshers.rs` (same CLMM
layout as Raydium). -/
def refresh_byreal_pools (rpc : Rpc) (env : DexDecoders) (program_id : Pubkey)
    (pools : List RaydiumClmmPool) : Except String (List RaydiumClmmPool) :=
  .ok (pools.map (refresh_clmm_step rpc env program_id))

/-! ## Little-endian serialization lemmas -/

theorem fromLEBytes_nil : fromLEBytes [] = 0 := rfl

theorem fromLEBytes_cons (b : Nat) (bs : List Nat) :
    fromLEBytes (b :: bs) = b + 256 * fromLEBytes bs := rfl

theorem natToLEBytes_length (k n : Nat) : (natToLEBytes k n).length = k := by
  induction k generalizing n with
  | zero => rfl
  | succ k ih => simp [natToLEBytes, ih]

theorem natToLEBytes_lt (k n : Nat) : ∀ b ∈ natToLEBytes k n, b < 256 := by
  induction k generalizing n with
  | zero => simp [natToLEBytes]
  | succ k ih =>
    intro b hb
    simp only [natToLEBytes, List.mem_cons] at hb
    rcases hb with h | h
    · omega
    · exact ih _ _ h

theorem fromLEBytes_natToLEBytes (k n : Nat) (h : n < 256 ^ k) :
    fromLEBytes (natToLEBytes k n) = n := by
  induction k generalizing n with
  | zero =>
    simp only [pow_zero, Nat.lt_one_iff] at h
    simp [natToLEBytes, fromLEBytes, h]
  | succ k ih =>
    have hdiv : n / 256 < 256 ^ k := by
      rw [Nat.div_lt_iff_lt_mul (by norm_num)]
      calc n < 256 ^ (k + 1) := h
        _ = 256 ^ k * 256 := by ring
    simp only [natToLEBytes, fromLEBytes_cons, ih _ hdiv]
    omega

theorem natToLEBytes_fromLEBytes (bs : List Nat) (h : ∀ b ∈ bs, b < 256) :
    natToLEBytes bs.length (fromLEBytes bs) = bs := by
  induction bs with
  | nil => rfl
  | cons b rest ih =>
    have hb : b < 256 := h b (List.mem_cons_self b rest)
    have hrest : ∀ x ∈ rest, x < 256 := fun x hx => h x (List.mem_cons_of_mem b hx)
    simp only [List.length_cons, natToLEBytes, fromLEBytes_cons]
    have hmod : (b + 256 * fromLEBytes rest) % 256 = b := by omega
    have hdiv : (b + 256 * fromLEBytes rest) / 256 = fromLEBytes rest := by omega
    rw [hmod, hdiv, ih hrest]

theorem fromLEBytes_lt (bs : List Nat) (h : ∀ b ∈ bs, b < 256) :
    fromLEBytes bs < 256 ^ bs.length := by
  induction bs with
  | nil => simp [fromLEBytes]
  | cons b rest ih =>
    have hb : b < 256 := h b (List.mem_cons_self b rest)
    have hrest := ih fun x hx => h x (List.mem_cons_of_mem b hx)
    simp only [fromLEBytes_cons, List.length_cons, pow_succ]
    calc b + 256 * fromLEBytes rest < 256 + 256 * fromLEBytes rest := by omega
      _ = 256 * (fromLEBytes rest + 1) := by ring
      _ ≤ 256 * 256 ^ rest.length := by
          exact Nat.mul_le_mul_left 256 (by omega)
      _ = 256 ^ rest.length * 256 := by ring

theorem read_u64_le_of_le (data : List Nat) (off : Nat) (h : off + 8 ≤ data.length) :
    read_u64_le data off = some (fromLEBytes ((data.drop off).take 8)) := by
  unfold read_u64_le
  rw [if_neg (by omega)]

/-- The inner bound checks of `decode_pubkey` are implied by
`off + 32 ≤ data.length`, so decoding at such an offset succeeds. -/
theorem decode_pubkey_of_le (data : List Nat) (off : Nat) (h : off + 32 ≤ data.length) :
    decode_pubkey data off =
      some (natToLEBytes 8 (fromLEBytes ((data.drop (off + 0 * 8)).take 8) ^^^ XOR_KEY_0) ++
            natToLEBytes 8 (fromLEBytes ((data.drop (off + 1 * 8)).take 8) ^^^ XOR_KEY_1) ++
            natToLEBytes 8 (fromLEBytes ((data.drop (off + 2 * 8)).take 8) ^^^ XOR_KEY_2) ++
            natToLEBytes 8 (fromLEBytes ((data.drop (off + 3 * 8)).take 8) ^^^ XOR_KEY_3)) := by
  unfold decode_pubkey
  rw [if_neg (by omega),
      read_u64_le_of_le _ _ (by omega), read_u64_le_of_le _ _ (by omega),
      read_u64_le_of_le _ _ (by omega), read_u64_le_of_le _ _ (by omega)]
  rfl

/-- C10: every input buffer of length at least `0x1e0 + 32 = 512`
bytes makes `HumidifiInfo::load_checked` return `Ok`: the four
"Failed to decode" arms are unreachable once the initial length check
passes, because `BASE_VAULT_OFFSET` is the largest of the four pubkey
offsets and every inner `decode_pubkey`/`read_u64_le` bound is implied
by the outer precondition. -/
theorem humidifi_load_checked_ok_of_length (data : List Nat)
    (h : BASE_VAULT_OFFSET + 32 ≤ data.length) :
    ∃ info, HumidifiInfo.load_checked data = .ok info := by
  have h1 := decode_pubkey_of_le data QUOTE_MINT_OFFSET
    (by simp only [QUOTE_MINT_OFFSET]; simp only [BASE_VAULT_OFFSET] at h; omega)
  have h2 := decode_pubkey_of_le data BASE_MINT_OFFSET
    (by simp only [BASE_MINT_OFFSET]; simp only [BASE_VAULT_OFFSET] at h; omega)
  have h3 := decode_pubkey_of_le data QUOTE_VAULT_OFFSET
    (by simp only [QUOTE_VAULT_OFFSET]; simp only [BASE_VAULT_OFFSET] at h; omega)
  have h4 := decode_pubkey_of_le data BASE_VAULT_OFFSET h
  unfold HumidifiInfo.load_checked
  rw [if_neg (by omega), h1, h2, h3, h4]
  exact ⟨_, rfl⟩

/-- Witness for C10 at the 512-byte all-zero buffer. -/
theorem humidifi_load_checked_ok_of_length_witness :
    BASE_VAULT_OFFSET + 32 ≤ (List.replicate 512 0).length ∧
      ∃ info, HumidifiInfo.load_checked (List.replicate 512 0) = .ok info :=
  ⟨by decide, humidifi_load_checked_ok_of_length (List.replicate 512 0) (by decide)⟩

/-! ## C1: short-buffer behaviour of the decoders -/

/-- A concrete stand-in for `Pubkey::find_program_address`. -/
def fpa0 : Fpa := fun _ _ => List.replicate 32 7

/-- A concrete stand-in for `get_associated_token_address`. -/
def ata0 : Ata := fun _ _ => List.replicate 32 9

/-- C1: the claim fails on the code.  `PumpAmmInfo::load_checked`
slices `&data[8..]` before any length check, so every buffer shorter
than 8 bytes makes it panic (index out of range) instead of returning
a typed decode error; `HumidifiInfo::load_checked` on the other hand
does return its typed length error on every too-short buffer. -/
theorem pump_load_checked_panics_on_short_buffer :
    PumpAmmInfo.load_checked fpa0 [] = .panicked ∧
    PumpAmmInfo.load_checked fpa0 (List.replicate 7 0) = .panicked ∧
    PumpAmmInfo.load_checked fpa0 (List.replicate 8 0) =
      .err "Invalid data length for PumpAmmInfo" ∧
    HumidifiInfo.load_checked (List.replicate 511 0) =
      .error "Invalid data length for HumidifiInfo" := by
  refine ⟨rfl, rfl, rfl, ?_⟩
  decide

/-! ## C5: the XOR obfuscation round-trip -/

/-- Reading back one stored chunk and XOR-ing it against its key again
recovers the original chunk value. -/
theorem chunk_roundtrip (c k : Nat) (hc : c < 2 ^ 64) (hk : k < 2 ^ 64) :
    fromLEBytes (natToLEBytes 8 (c ^^^ k)) = c ^^^ k := by
  apply fromLEBytes_natToLEBytes
  have h : (256 : Nat) ^ 8 = 2 ^ 64 := by norm_num
  rw [h]
  exact Nat.xor_lt_two_pow hc hk

/-- Reassembling the four 8-byte windows of a 32-byte list gives the
list back. -/
theorem concat_take8 (v : List Nat) (h : v.length = 32) :
    (v.drop 0).take 8 ++ ((v.drop 8).take 8 ++ ((v.drop 16).take 8 ++ (v.drop 24).take 8)) =
      v := by
  have h24 : (v.drop 24).take 8 = v.drop 24 :=
    List.take_of_length_le (by simp [h])
  have e16 : (v.drop 16).take 8 ++ (v.drop 24).take 8 = v.drop 16 := by
    rw [h24, show (24 : Nat) = 16 + 8 by norm_num, ← List.drop_drop,
        List.take_append_drop]
  have e8 : (v.drop 8).take 8 ++ v.drop 16 = v.drop 8 := by
    rw [show (16 : Nat) = 8 + 8 by norm_num, ← List.drop_drop,
        List.take_append_drop]
  rw [e16, e8, List.drop_zero, List.take_append_drop]

/-- C5: obfuscating a 32-byte value by XOR-ing each of its four 8-byte
little-endian chunks with the fixed per-chunk keys and then running
`decode_pubkey` on the obfuscated bytes at the same offset returns the
original value: the chunk-wise XOR transform is an involution, so the
decoder undoes the storage obfuscation. -/
theorem decode_pubkey_obfuscate_roundtrip (v pre : List Nat)
    (hlen : v.length = 32) (hbytes : ∀ b ∈ v, b < 256) :
    decode_pubkey (pre ++ obfuscate_pubkey v) pre.length = some v := by
  have hA : ∀ n, (natToLEBytes 8 n).length = 8 := fun n => natToLEBytes_length 8 n
  have hobf_len : (obfuscate_pubkey v).length = 32 := by
    simp [obfuscate_pubkey, hA]
  have hdrop : ∀ m, (pre ++ obfuscate_pubkey v).drop (pre.length + m) =
      (obfuscate_pubkey v).drop m := by
    intro m
    rw [← List.drop_drop, List.drop_left]
  -- the four windows of the obfuscated buffer are the four stored chunks
  have hset : obfuscate_pubkey v =
      natToLEBytes 8 (fromLEBytes ((v.drop 0).take 8) ^^^ XOR_KEY_0) ++
      (natToLEBytes 8 (fromLEBytes ((v.drop 8).take 8) ^^^ XOR_KEY_1) ++
      (natToLEBytes 8 (fromLEBytes ((v.drop 16).take 8) ^^^ XOR_KEY_2) ++
       natToLEBytes 8 (fromLEBytes ((v.drop 24).take 8) ^^^ XOR_KEY_3))) := by
    simp [obfuscate_pubkey, List.append_assoc]
  have hwin : ∀ (c : Nat) (rest : List Nat),
      (natToLEBytes 8 c ++ rest).take 8 = natToLEBytes 8 c := by
    intro c rest
    exact List.take_left' (hA c)
  have hskip : ∀ (c : Nat) (rest : List Nat),
      (natToLEBytes 8 c ++ rest).drop 8 = rest := by
    intro c rest
    exact List.drop_left' (hA c)
  -- chunk values and their bounds
  have hcbound : ∀ m, fromLEBytes ((v.drop m).take 8) < 2 ^ 64 := by
    intro m
    have hb : ∀ b ∈ (v.drop m).take 8, b < 256 := by
      intro b hb
      exact hbytes b (List.mem_of_mem_drop (List.mem_of_mem_take hb))
    have := fromLEBytes_lt _ hb
    calc fromLEBytes ((v.drop m).take 8) < 256 ^ ((v.drop m).take 8).length := this
      _ ≤ 256 ^ 8 := by
          apply Nat.pow_le_pow_right (by norm_num)
          simp [List.length_take]
      _ = 2 ^ 64 := by norm_num
  -- the four 8-byte windows of the obfuscated block
  have d8 : (obfuscate_pubkey v).drop 8 =
      natToLEBytes 8 (fromLEBytes ((v.drop 8).take 8) ^^^ XOR_KEY_1) ++
      (natToLEBytes 8 (fromLEBytes ((v.drop 16).take 8) ^^^ XOR_KEY_2) ++
       natToLEBytes 8 (fromLEBytes ((v.drop 24).take 8) ^^^ XOR_KEY_3)) := by
    rw [hset, hskip]
  have d16 : (obfuscate_pubkey v).drop 16 =
      natToLEBytes 8 (fromLEBytes ((v.drop 16).take 8) ^^^ XOR_KEY_2) ++
      natToLEBytes 8 (fromLEBytes ((v.drop 24).take 8) ^^^ XOR_KEY_3) := by
    rw [show (16 : Nat) = 8 + 8 by norm_num, ← List.drop_drop, d8, hskip]
  have d24 : (obfuscate_pubkey v).drop 24 =
      natToLEBytes 8 (fromLEBytes ((v.drop 24).take 8) ^^^ XOR_KEY_3) := by
    rw [show (24 : Nat) = 16 + 8 by norm_num, ← List.drop_drop, d16, hskip]
  have w0 : (obfuscate_pubkey v).take 8 =
      natToLEBytes 8 (fromLEBytes ((v.drop 0).take 8) ^^^ XOR_KEY_0) := by
    rw [hset]; exact hwin _ _
  have w8 : ((obfuscate_pubkey v).drop 8).take 8 =
      natToLEBytes 8 (fromLEBytes ((v.drop 8).take 8) ^^^ XOR_KEY_1) := by
    rw [d8]; exact hwin _ _
  have w16 : ((obfuscate_pubkey v).drop 16).take 8 =
      natToLEBytes 8 (fromLEBytes ((v.drop 16).take 8) ^^^ XOR_KEY_2) := by
    rw [d16]; exact hwin _ _
  have w24 : ((obfuscate_pubkey v).drop 24).take 8 =
      natToLEBytes 8 (fromLEBytes ((v.drop 24).take 8) ^^^ XOR_KEY_3) := by
    rw [d24]; exact List.take_of_length_le (le_of_eq (hA _))
  -- run the decoder
  rw [decode_pubkey_of_le _ _ (by simp [hobf_len])]
  rw [show pre.length + 0 * 8 = pre.length + 0 by ring, hdrop 0,
      show pre.length + 1 * 8 = pre.length + 8 by ring, hdrop 8,
      show pre.length + 2 * 8 = pre.length + 16 by ring, hdrop 16,
      show pre.length + 3 * 8 = pre.length + 24 by ring, hdrop 24]
  rw [List.drop_zero, w0, w8, w16, w24]
  have hchunk : ∀ (m : Nat) (k : Nat), k < 2 ^ 64 → m + 8 ≤ 32 →
      natToLEBytes 8 (fromLEBytes (natToLEBytes 8 (fromLEBytes ((v.drop m).take 8) ^^^ k)) ^^^ k) =
        (v.drop m).take 8 := by
    intro m k hk hm
    rw [chunk_roundtrip _ _ (hcbound m) hk, Nat.xor_cancel_right]
    have hl : ((v.drop m).take 8).length = 8 := by
      simp only [List.length_take, List.length_drop, hlen]
      omega
    have hb : ∀ b ∈ (v.drop m).take 8, b < 256 := by
      intro b hb
      exact hbytes b (List.mem_of_mem_drop (List.mem_of_mem_take hb))
    have := natToLEBytes_fromLEBytes ((v.drop m).take 8) hb
    rw [hl] at this
    exact this
  rw [hchunk 0 XOR_KEY_0 (by decide) (by omega),
      hchunk 8 XOR_KEY_1 (by decide) (by omega),
      hchunk 16 XOR_KEY_2 (by decide) (by omega),
      hchunk 24 XOR_KEY_3 (by decide) (by omega)]
  rw [show ((v.drop 0).take 8 ++ (v.drop 8).take 8 ++ (v.drop 16).take 8 ++ (v.drop 24).take 8 : List Nat) =
        (v.drop 0).take 8 ++ ((v.drop 8).take 8 ++ ((v.drop 16).take 8 ++ (v.drop 24).take 8)) by
      simp [List.append_assoc]]
  rw [concat_take8 v hlen]

/-- Witness for C5 at `v = [0, …, 31]` with a 5-byte prefix. -/
theorem decode_pubkey_obfuscate_roundtrip_witness :
    (List.range 32).length = 32 ∧ (∀ b ∈ List.range 32, b < 256) ∧
      decode_pubkey (List.replicate 5 0 ++ obfuscate_pubkey (List.range 32))
        (List.replicate 5 0).length = some (List.range 32) :=
  ⟨by decide, by decide,
    decode_pubkey_obfuscate_roundtrip (List.range 32) (List.replicate 5 0)
      (by decide) (by decide)⟩

/-! ## C7 and C8: Pump decoder field semantics

After the 8-byte discriminator strip, the minimum accepted payload is
`195` bytes (`pool_quote_offset + 32`), the creator field sits at
offset `203` and the mayhem flag byte at offset `235`
(`is_mayhem_mode_offset`). -/

/-- C7: a buffer that passes the minimum-length check of
`PumpAmmInfo::load_checked` but whose payload does not reach the
mayhem flag byte at offset 235 decodes to `Ok` with
`is_mayhem_mode = false` instead of an error; when the flag byte is
present, `is_mayhem_mode` is true exactly when the byte is
non-zero. -/
theorem pump_is_mayhem_mode_spec (fpa : Fpa) (data : List Nat)
    (hmin : 8 + 195 ≤ data.length) :
    (data.length ≤ 8 + 235 →
      ∃ info, PumpAmmInfo.load_checked fpa data = .ok info ∧
        info.is_mayhem_mode = false) ∧
    (8 + 235 < data.length →
      ∃ info, PumpAmmInfo.load_checked fpa data = .ok info ∧
        (info.is_mayhem_mode = true ↔ (data.drop 8).getD 235 0 ≠ 0)) := by
  unfold PumpAmmInfo.load_checked
  rw [if_neg (by omega)]
  rw [if_neg (by simp only [List.length_drop]; omega)]
  constructor
  · intro hshort
    refine ⟨_, rfl, ?_⟩
    simp only [List.length_drop]
    rw [if_pos (by omega)]
  · intro hlong
    refine ⟨_, rfl, ?_⟩
    simp only [List.length_drop]
    rw [if_neg (by omega)]
    simp

/-- Witness for C7: a 203-byte all-zero buffer decodes with the flag
defaulted to `false`; a 250-byte buffer with a non-zero byte at
payload offset 235 decodes with the flag set. -/
theorem pump_is_mayhem_mode_spec_witness :
    (∃ info, PumpAmmInfo.load_checked fpa0 (List.replicate 203 0) = .ok info ∧
       info.is_mayhem_mode = false) ∧
    (∃ info, PumpAmmInfo.load_checked fpa0 (List.replicate 250 1) = .ok info ∧
       (info.is_mayhem_mode = true ↔ ((List.replicate 250 1).drop 8).getD 235 0 ≠ 0)) :=
  ⟨(pump_is_mayhem_mode_spec fpa0 (List.replicate 203 0) (by decide)).1 (by decide),
   (pump_is_mayhem_mode_spec fpa0 (List.replicate 250 1) (by decide)).2 (by decide)⟩

/-- The zero/non-zero dichotomy of the derived creator-vault
authority, for any creator value `C`. -/
theorem creatorAuthority_cases (fpa : Fpa) (C : Pubkey)
    (hfpa : ∀ c : Pubkey, fpa [COIN_CREATOR_VAULT_SEED, c] pump_program_id ≠ zeroPubkey) :
    ((if C = zeroPubkey then zeroPubkey
      else fpa [COIN_CREATOR_VAULT_SEED, C] pump_program_id) = zeroPubkey ↔ C = zeroPubkey) ∧
    (C ≠ zeroPubkey →
      (if C = zeroPubkey then zeroPubkey
       else fpa [COIN_CREATOR_VAULT_SEED, C] pump_program_id) =
        fpa [COIN_CREATOR_VAULT_SEED, C] pump_program_id) := by
  constructor
  · split
    · next h => simp [h]
    · next h => exact iff_of_false (hfpa _) h
  · intro hne
    rw [if_neg hne]

/-- C8: for every buffer accepted by `PumpAmmInfo::load_checked`, the
returned `coin_creator_vault_authority` is the zero address exactly
when the decoded `coin_creator` is the zero address (including the
short-buffer case that defaults the creator to zero); for a non-zero
creator it is the derived address for seeds
`("creator_vault", coin_creator)` under the Pump program.  The
hypothesis on `fpa` states that the seeded derivation never lands on
the zero address (`find_program_address` is Solana SDK code outside
this repository; a derived address is a hash image and is never the
zero key in practice). -/
theorem pump_creator_vault_authority_spec (fpa : Fpa) (data : List Nat)
    (info : PumpAmmInfo)
    (hfpa : ∀ c : Pubkey, fpa [COIN_CREATOR_VAULT_SEED, c] pump_program_id ≠ zeroPubkey)
    (hok : PumpAmmInfo.load_checked fpa data = .ok info) :
    (info.coin_creator_vault_authority = zeroPubkey ↔ info.coin_creator = zeroPubkey) ∧
    (info.coin_creator ≠ zeroPubkey →
      info.coin_creator_vault_authority =
        fpa [COIN_CREATOR_VAULT_SEED, info.coin_creator] pump_program_id) := by
  unfold PumpAmmInfo.load_checked at hok
  split at hok
  · exact DecodeResult.noConfusion hok
  · dsimp only at hok
    split at hok
    · exact DecodeResult.noConfusion hok
    · rw [DecodeResult.ok.injEq] at hok
      subst hok
      dsimp only
      exact creatorAuthority_cases fpa _ hfpa

/-- Witness for C8 at a 203-byte all-zero buffer (creator defaults to
zero, so the authority is zero) with a never-zero derivation
stand-in. -/
theorem pump_creator_vault_authority_spec_witness :
    PumpAmmInfo.load_checked fpa0 (List.replicate 203 0) =
      .ok { base_mint := List.replicate 32 0, quote_mint := List.replicate 32 0,
            pool_base_token_account := List.replicate 32 0,
            pool_quote_token_account := List.replicate 32 0,
            coin_creator := zeroPubkey,
            coin_creator_vault_authority := zeroPubkey,
            is_mayhem_mode := false } ∧
    ({ base_mint := List.replicate 32 0, quote_mint := List.replicate 32 0,
       pool_base_token_account := List.replicate 32 0,
       pool_quote_token_account := List.replicate 32 0,
       coin_creator := zeroPubkey,
       coin_creator_vault_authority := zeroPubkey,
       is_mayhem_mode := false : PumpAmmInfo}.coin_creator_vault_authority = zeroPubkey ↔
     ({ base_mint := List.replicate 32 0, quote_mint := List.replicate 32 0,
        pool_base_token_account := List.replicate 32 0,
        pool_quote_token_account := List.replicate 32 0,
        coin_creator := zeroPubkey,
        coin_creator_vault_authority := zeroPubkey,
        is_mayhem_mode := false : PumpAmmInfo}).coin_creator = zeroPubkey) :=
  ⟨by decide,
   (pump_creator_vault_authority_spec fpa0 (List.replicate 203 0) _
      (fun _ h => (by decide : ¬(List.replicate 32 7 = zeroPubkey)) h)
      (by decide)).1⟩


/-! ## C9: the pool-kind detection table -/

/-- C9: `detect_pool_kind` is a pure table lookup: it returns `some`
exactly when the owner equals one of the ten venue program ids it
tests, and `none` for every other owner — in particular for the
PancakeSwap and Byreal program ids (defined in `src/dex` but absent
from the table). -/
theorem detect_pool_kind_table_spec (t : ProgramIdTable) (owner : Pubkey) :
    ((detect_pool_kind t owner).isSome ↔ owner ∈ t.ids) ∧
    (pancakeswap_program_id ∉ t.ids →
      detect_pool_kind t pancakeswap_program_id = none) ∧
    (byreal_program_id ∉ t.ids →
      detect_pool_kind t byreal_program_id = none) := by
  have main : ∀ o : Pubkey, (detect_pool_kind t o).isSome ↔ o ∈ t.ids := by
    intro o
    unfold detect_pool_kind ProgramIdTable.ids
    split_ifs with h1 h2 h3 h4 h5 h6 h7 h8 h9 h10 <;> simp [*]
  refine ⟨main owner, ?_, ?_⟩
  · intro h
    exact Option.not_isSome_iff_eq_none.mp
      (fun hs => h ((main pancakeswap_program_id).mp hs))
  · intro h
    exact Option.not_isSome_iff_eq_none.mp
      (fun hs => h ((main byreal_program_id).mp hs))

/-- A concrete program-id table for witnesses: the Pump id is the real
constant from `src/dex/pump/constants.rs`, the other nine (whose
defining modules are not among the sources) are distinct placeholder
addresses. -/
def t0 : ProgramIdTable where
  pump := pump_program_id
  raydiumV4 := List.replicate 32 10
  raydiumCp := List.replicate 32 11
  raydiumClmm := List.replicate 32 12
  dlmm := List.replicate 32 13
  damm := List.replicate 32 14
  dammV2 := List.replicate 32 15
  whirlpool := List.replicate 32 16
  vertigo := List.replicate 32 17
  heaven := List.replicate 32 18

/-- Witness for C9 at the concrete table `t0`: the PancakeSwap and
Byreal ids are absent from it and map to `none`. -/
theorem detect_pool_kind_table_spec_witness :
    ((detect_pool_kind t0 sol_mint).isSome ↔ sol_mint ∈ t0.ids) ∧
    detect_pool_kind t0 pancakeswap_program_id = none ∧
    detect_pool_kind t0 byreal_program_id = none :=
  ⟨(detect_pool_kind_table_spec t0 sol_mint).1,
   (detect_pool_kind_table_spec t0 sol_mint).2.1 (by decide),
   (detect_pool_kind_table_spec t0 sol_mint).2.2 (by decide)⟩

/-! ## C6: anchor-side selection of `extract_token_mint` -/

/-- The selection pattern shared by the nine single-anchor venues:
return the opposite side of the first side found equal to the anchor,
`none` when neither side is the anchor. -/
theorem pair_select_spec (s a b : Pubkey) :
    (∀ m, (if a = s then DecodeResult.ok (some b)
           else if b = s then DecodeResult.ok (some a)
           else DecodeResult.ok none) = DecodeResult.ok (some m) →
       ((a ∈ [s] ∧ m = b) ∨ (a ∉ [s] ∧ b ∈ [s] ∧ m = a))) ∧
    (a ∉ [s] → b ∉ [s] →
      (if a = s then DecodeResult.ok (some b)
       else if b = s then DecodeResult.ok (some a)
       else DecodeResult.ok none) = DecodeResult.ok none) := by
  constructor
  · intro m hm
    split_ifs at hm with h1 h2
    · refine Or.inl ⟨by simp [h1], ?_⟩
      injection hm with h
      injection h with h
      exact h.symm
    · refine Or.inr ⟨by simp [h1], by simp [h2], ?_⟩
      injection hm with h
      injection h with h
      exact h.symm
    · injection hm with h
      exact Option.noConfusion h
  · intro hna hnb
    rw [if_neg (by simpa using hna), if_neg (by simpa using hnb)]

/-- The Heaven selection pattern, with the two accepted anchors. -/
theorem pair_select_spec2 (s u a b : Pubkey) :
    (∀ m, (if a = s ∨ a = u then DecodeResult.ok (some b)
           else if b = s ∨ b = u then DecodeResult.ok (some a)
           else DecodeResult.ok none) = DecodeResult.ok (some m) →
       ((a ∈ [s, u] ∧ m = b) ∨ (a ∉ [s, u] ∧ b ∈ [s, u] ∧ m = a))) ∧
    (a ∉ [s, u] → b ∉ [s, u] →
      (if a = s ∨ a = u then DecodeResult.ok (some b)
       else if b = s ∨ b = u then DecodeResult.ok (some a)
       else DecodeResult.ok none) = DecodeResult.ok none) := by
  constructor
  · intro m hm
    split_ifs at hm with h1 h2
    · refine Or.inl ⟨by simpa using h1, ?_⟩
      injection hm with h
      injection h with h
      exact h.symm
    · refine Or.inr ⟨by simpa using h1, by simpa using h2, ?_⟩
      injection hm with h
      injection h with h
      exact h.symm
    · injection hm with h
      exact Option.noConfusion h
  · intro hna hnb
    rw [if_neg (by simpa using hna), if_neg (by simpa using hnb)]

/-- C6: for every venue kind and every account buffer,
`extract_token_mint` returns `Ok(Some m)` only when one side of the
decoded pool equals an accepted anchor mint (SOL for nine venues, SOL
or USDC for Heaven) and `m` is the other side's mint; when neither
decoded side is an accepted anchor it returns `Ok(None)` and the pool
is skipped. -/
theorem extract_token_mint_anchor_spec (fpa : Fpa) (env : DexDecoders)
    (kind : MarketPoolKind) (data : List Nat) (pool_pubkey : Pubkey) :
    (∀ m, extract_token_mint fpa env kind data pool_pubkey = .ok (some m) →
      ∃ a b, decodedSides fpa env kind data pool_pubkey = some (a, b) ∧
        ((a ∈ anchors kind ∧ m = b) ∨
         (a ∉ anchors kind ∧ b ∈ anchors kind ∧ m = a))) ∧
    (∀ a b, decodedSides fpa env kind data pool_pubkey = some (a, b) →
      a ∉ anchors kind → b ∉ anchors kind →
      extract_token_mint fpa env kind data pool_pubkey = .ok none) := by
  cases kind
  case Pump =>
    simp only [extract_token_mint, decodedSides, anchors]
    cases h : PumpAmmInfo.load_checked fpa data with
    | panicked =>
      exact ⟨fun m hm => DecodeResult.noConfusion hm,
             fun a b hab => Option.noConfusion hab⟩
    | err e =>
      exact ⟨fun m hm => DecodeResult.noConfusion hm,
             fun a b hab => Option.noConfusion hab⟩
    | ok info =>
      constructor
      · intro m hm
        exact ⟨info.base_mint, info.quote_mint, rfl, (pair_select_spec _ _ _).1 m hm⟩
      · intro a b hab hna hnb
        obtain ⟨rfl, rfl⟩ : a = info.base_mint ∧ b = info.quote_mint := by
          injection hab with h1
          injection h1 with ha hb
          exact ⟨ha.symm, hb.symm⟩
        exact (pair_select_spec _ _ _).2 hna hnb
  case RaydiumV4 =>
    simp only [extract_token_mint, decodedSides, anchors]
    cases h : env.raydiumLoad data with
    | error e =>
      exact ⟨fun m hm => DecodeResult.noConfusion hm,
             fun a b hab => Option.noConfusion hab⟩
    | ok info =>
      constructor
      · intro m hm
        exact ⟨info.coin_mint, info.pc_mint, rfl, (pair_select_spec _ _ _).1 m hm⟩
      · intro a b hab hna hnb
        obtain ⟨rfl, rfl⟩ : a = info.coin_mint ∧ b = info.pc_mint := by
          injection hab with h1
          injection h1 with ha hb
          exact ⟨ha.symm, hb.symm⟩
        exact (pair_select_spec _ _ _).2 hna hnb
  case RaydiumCp =>
    simp only [extract_token_mint, decodedSides, anchors]
    cases h : env.raydiumCpLoad data with
    | error e =>
      exact ⟨fun m hm => DecodeResult.noConfusion hm,
             fun a b hab => Option.noConfusion hab⟩
    | ok info =>
      constructor
      · intro m hm
        exact ⟨info.token_0_mint, info.token_1_mint, rfl, (pair_select_spec _ _ _).1 m hm⟩
      · intro a b hab hna hnb
        obtain ⟨rfl, rfl⟩ : a = info.token_0_mint ∧ b = info.token_1_mint := by
          injection hab with h1
          injection h1 with ha hb
          exact ⟨ha.symm, hb.symm⟩
        exact (pair_select_spec _ _ _).2 hna hnb
  case RaydiumClmm =>
    simp only [extract_token_mint, decodedSides, anchors]
    cases h : env.poolStateLoad data with
    | error e =>
      exact ⟨fun m hm => DecodeResult.noConfusion hm,
             fun a b hab => Option.noConfusion hab⟩
    | ok info =>
      constructor
      · intro m hm
        exact ⟨info.token_mint_0, info.token_mint_1, rfl, (pair_select_spec _ _ _).1 m hm⟩
      · intro a b hab hna hnb
        obtain ⟨rfl, rfl⟩ : a = info.token_mint_0 ∧ b = info.token_mint_1 := by
          injection hab with h1
          injection h1 with ha hb
          exact ⟨ha.symm, hb.symm⟩
        exact (pair_select_spec _ _ _).2 hna hnb
  case MeteoraDlmm =>
    simp only [extract_token_mint, decodedSides, anchors]
    cases h : env.dlmmLoad data with
    | error e =>
      exact ⟨fun m hm => DecodeResult.noConfusion hm,
             fun a b hab => Option.noConfusion hab⟩
    | ok info =>
      constructor
      · intro m hm
        exact ⟨info.token_x_mint, info.token_y_mint, rfl, (pair_select_spec _ _ _).1 m hm⟩
      · intro a b hab hna hnb
        obtain ⟨rfl, rfl⟩ : a = info.token_x_mint ∧ b = info.token_y_mint := by
          injection hab with h1
          injection h1 with ha hb
          exact ⟨ha.symm, hb.symm⟩
        exact (pair_select_spec _ _ _).2 hna hnb
  case MeteoraDamm =>
    simp only [extract_token_mint, decodedSides, anchors]
    cases h : env.dammDeserialize data with
    | error e =>
      exact ⟨fun m hm => DecodeResult.noConfusion hm,
             fun a b hab => Option.noConfusion hab⟩
    | ok pool =>
      constructor
      · intro m hm
        exact ⟨pool.token_a_mint, pool.token_b_mint, rfl, (pair_select_spec _ _ _).1 m hm⟩
      · intro a b hab hna hnb
        obtain ⟨rfl, rfl⟩ : a = pool.token_a_mint ∧ b = pool.token_b_mint := by
          injection hab with h1
          injection h1 with ha hb
          exact ⟨ha.symm, hb.symm⟩
        exact (pair_select_spec _ _ _).2 hna hnb
  case MeteoraDammV2 =>
    simp only [extract_token_mint, decodedSides, anchors]
    cases h : env.dammV2Load data with
    | error e =>
      exact ⟨fun m hm => DecodeResult.noConfusion hm,
             fun a b hab => Option.noConfusion hab⟩
    | ok info =>
      constructor
      · intro m hm
        exact ⟨info.base_mint, info.quote_mint, rfl, (pair_select_spec _ _ _).1 m hm⟩
      · intro a b hab hna hnb
        obtain ⟨rfl, rfl⟩ : a = info.base_mint ∧ b = info.quote_mint := by
          injection hab with h1
          injection h1 with ha hb
          exact ⟨ha.symm, hb.symm⟩
        exact (pair_select_spec _ _ _).2 hna hnb
  case Whirlpool =>
    simp only [extract_token_mint, decodedSides, anchors]
    cases h : env.whirlpoolDeserialize data with
    | error e =>
      exact ⟨fun m hm => DecodeResult.noConfusion hm,
             fun a b hab => Option.noConfusion hab⟩
    | ok whirlpool =>
      constructor
      · intro m hm
        exact ⟨whirlpool.token_mint_a, whirlpool.token_mint_b, rfl,
               (pair_select_spec _ _ _).1 m hm⟩
      · intro a b hab hna hnb
        obtain ⟨rfl, rfl⟩ : a = whirlpool.token_mint_a ∧ b = whirlpool.token_mint_b := by
          injection hab with h1
          injection h1 with ha hb
          exact ⟨ha.symm, hb.symm⟩
        exact (pair_select_spec _ _ _).2 hna hnb
  case Vertigo =>
    simp only [extract_token_mint, decodedSides, anchors]
    cases h : env.vertigoLoad data pool_pubkey with
    | error e =>
      exact ⟨fun m hm => DecodeResult.noConfusion hm,
             fun a b hab => Option.noConfusion hab⟩
    | ok info =>
      constructor
      · intro m hm
        exact ⟨info.mint_a, info.mint_b, rfl, (pair_select_spec _ _ _).1 m hm⟩
      · intro a b hab hna hnb
        obtain ⟨rfl, rfl⟩ : a = info.mint_a ∧ b = info.mint_b := by
          injection hab with h1
          injection h1 with ha hb
          exact ⟨ha.symm, hb.symm⟩
        exact (pair_select_spec _ _ _).2 hna hnb
  case Heaven =>
    simp only [extract_token_mint, decodedSides, anchors]
    cases h : env.heavenParse data with
    | none =>
      exact ⟨fun m hm => DecodeResult.noConfusion hm,
             fun a b hab => Option.noConfusion hab⟩
    | some info =>
      constructor
      · intro m hm
        exact ⟨info.mint_a, info.mint_b, rfl, (pair_select_spec2 _ _ _ _).1 m hm⟩
      · intro a b hab hna hnb
        obtain ⟨rfl, rfl⟩ : a = info.mint_a ∧ b = info.mint_b := by
          injection hab with h1
          injection h1 with ha hb
          exact ⟨ha.symm, hb.symm⟩
        exact (pair_select_spec2 _ _ _ _).2 hna hnb

/-! ## Concrete environments for witnesses -/

/-- A concrete decoded Raydium V4 record with SOL on the coin side. -/
def rInfo0 : RaydiumAmmInfo where
  coin_mint := sol_mint
  pc_mint := List.replicate 32 4
  coin_vault := List.replicate 32 20
  pc_vault := List.replicate 32 21

/-- A concrete decoder environment: the Raydium V4 decoder always
yields `rInfo0`, every other decoder fails. -/
def env0 : DexDecoders where
  raydiumLoad := fun _ => .ok rInfo0
  raydiumCpLoad := fun _ => .error "decode"
  poolStateLoad := fun _ => .error "decode"
  dlmmLoad := fun _ => .error "decode"
  dammDeserialize := fun _ => .error "decode"
  vaultDeserialize := fun _ => .error "decode"
  dammV2Load := fun _ => .error "decode"
  whirlpoolDeserialize := fun _ => .error "decode"
  vertigoLoad := fun _ _ => .error "decode"
  heavenParse := fun _ => none
  dlmmVaults := fun _ _ _ => (zeroPubkey, zeroPubkey)
  dlmmBinArrays := fun _ _ => .error "calc"
  whirlpoolTickArrays := fun _ _ _ => []
  tickArrayPubkeys := fun _ _ _ _ _ => .error "tick"

/-- Witness for C6: with the `env0` Raydium decoder, the traded mint
extracted from any buffer is the non-SOL side of `rInfo0`. -/
theorem extract_token_mint_anchor_spec_witness :
    ∃ a b, decodedSides fpa0 env0 .RaydiumV4 [] zeroPubkey = some (a, b) ∧
      ((a ∈ anchors .RaydiumV4 ∧ List.replicate 32 4 = b) ∨
       (a ∉ anchors .RaydiumV4 ∧ b ∈ anchors .RaydiumV4 ∧ List.replicate 32 4 = a)) :=
  (extract_token_mint_anchor_spec fpa0 env0 .RaydiumV4 [] zeroPubkey).1
    (List.replicate 32 4) (by decide)

/-! ## C4: refresh failures keep the stale bucket lists -/

/-- C4: for every pool in a registry entry, if during
`refresh_dlmm_pools` / `refresh_whirlpool_pools` /
`refresh_raydium_clmm_pools` / `refresh_pancakeswap_pools` /
`refresh_byreal_pools` the account fetch, the re-decode or the
bucket-address recomputation fails, the previously stored
`bin_arrays`/`tick_arrays` list is retained, and every refresher still
returns `Ok` (of the pointwise-refreshed list). -/
theorem refresh_failure_preserves_buckets (rpc : Rpc) (env : DexDecoders)
    (program_id : Pubkey) :
    (∀ pools, refresh_dlmm_pools rpc env pools =
        .ok (pools.map (refresh_dlmm_step rpc env))) ∧
    (∀ pools, refresh_whirlpool_pools rpc env program_id pools =
        .ok (pools.map (refresh_whirlpool_step rpc env program_id))) ∧
    (∀ pools, refresh_raydium_clmm_pools rpc env program_id pools =
        .ok (pools.map (refresh_clmm_step rpc env program_id))) ∧
    (∀ pools, refresh_pancakeswap_pools rpc env program_id pools =
        .ok (pools.map (refresh_clmm_step rpc env program_id))) ∧
    (∀ pools, refresh_byreal_pools rpc env program_id pools =
        .ok (pools.map (refresh_clmm_step rpc env program_id))) ∧
    (∀ (pool : DlmmPool) e, rpc pool.pair = .error e →
      refresh_dlmm_step rpc env pool = pool) ∧
    (∀ (pool : DlmmPool) account e, rpc pool.pair = .ok account →
      env.dlmmLoad account.data = .error e →
      refresh_dlmm_step rpc env pool = pool) ∧
    (∀ (pool : DlmmPool) account info e, rpc pool.pair = .ok account →
      env.dlmmLoad account.data = .ok info →
      env.dlmmBinArrays info pool.pair = .error e →
      refresh_dlmm_step rpc env pool = pool) ∧
    (∀ (pool : WhirlpoolPool) e, rpc pool.pool = .error e →
      refresh_whirlpool_step rpc env program_id pool = pool) ∧
    (∀ (pool : WhirlpoolPool) account e, rpc pool.pool = .ok account →
      env.whirlpoolDeserialize account.data = .error e →
      refresh_whirlpool_step rpc env program_id pool = pool) ∧
    (∀ (pool : RaydiumClmmPool) e, rpc pool.pool = .error e →
      refresh_clmm_step rpc env program_id pool = pool) ∧
    (∀ (pool : RaydiumClmmPool) account e, rpc pool.pool = .ok account →
      env.poolStateLoad account.data = .error e →
      refresh_clmm_step rpc env program_id pool = pool) ∧
    (∀ (pool : RaydiumClmmPool) account ps e, rpc pool.pool = .ok account →
      env.poolStateLoad account.data = .ok ps →
      env.tickArrayPubkeys pool.pool ps.tick_current ps.tick_spacing
        [-1, 0, 1] program_id = .error e →
      refresh_clmm_step rpc env program_id pool = pool) := by
  refine ⟨fun _ => rfl, fun _ => rfl, fun _ => rfl, fun _ => rfl, fun _ => rfl,
          ?_, ?_, ?_, ?_, ?_, ?_, ?_, ?_⟩
  · intro pool e h
    simp only [refresh_dlmm_step, h]
  · intro pool account e h1 h2
    simp only [refresh_dlmm_step, h1, h2]
  · intro pool account info e h1 h2 h3
    simp only [refresh_dlmm_step, h1, h2, h3]
  · intro pool e h
    simp only [refresh_whirlpool_step, h]
  · intro pool account e h1 h2
    simp only [refresh_whirlpool_step, h1, h2]
  · intro pool e h
    simp only [refresh_clmm_step, h]
  · intro pool account e h1 h2
    simp only [refresh_clmm_step, h1, h2]
    split
    · rfl
    · rfl
  · intro pool account ps e h1 h2 h3
    simp only [refresh_clmm_step, h1, h2, h3]
    split
    · rfl
    · rfl

/-- An always-failing account fetch. -/
def rpcFail : Rpc := fun _ => .error "down"

/-- A concrete registered DLMM pool with one stored bin array. -/
def dlmm0 : DlmmPool where
  pair := List.replicate 32 30
  token_vault := List.replicate 32 31
  sol_vault := List.replicate 32 32
  oracle := List.replicate 32 33
  bin_arrays := [List.replicate 32 34]
  token_mint := List.replicate 32 4
  base_mint := sol_mint

/-- Witness for C4: with a failing fetch, a DLMM pool's stored bin
arrays survive a refresh, and the refresher returns `Ok`. -/
theorem refresh_failure_preserves_buckets_witness :
    refresh_dlmm_pools rpcFail env0 [] =
      .ok ([].map (refresh_dlmm_step rpcFail env0)) ∧
    refresh_dlmm_step rpcFail env0 dlmm0 = dlmm0 :=
  ⟨(refresh_failure_preserves_buckets rpcFail env0 zeroPubkey).1 [],
   (refresh_failure_preserves_buckets rpcFail env0 zeroPubkey).2.2.2.2.2.1
     dlmm0 "down" rfl⟩

/-! ## C2: the exactly-one-key-mint invariant of registration -/

/-- A key mint equal to neither side of the pool below. -/
def kK : Pubkey := List.replicate 32 3

/-- Raw Pump account data: 8-byte discriminator, 35-byte header, then
`base_mint` = 32 × `1`, `quote_mint` = 32 × `2`, 96 zero tail bytes
(203 bytes in total, payload exactly the 195-byte minimum). -/
def c2data : List Nat :=
  List.replicate 43 0 ++
    (List.replicate 32 1 ++ (List.replicate 32 2 ++ List.replicate 96 0))

/-- Fetch returning the Pump account above, correctly owned. -/
def c2rpc : Rpc := fun _ => .ok ⟨pump_program_id, c2data⟩

def addr0 : Pubkey := List.replicate 32 5

/-- `true` when the Pump section registers (does not reject) a pool
record with neither stored mint equal to the entry's key mint. -/
def c2_registers_violating_pool : Bool :=
  match process_pump_pool fpa0 ata0 c2rpc kK addr0 with
  | .add p => !(p.token_mint == kK) && !(p.base_mint == kK)
  | _ => false

/-- C2 counterexample: the Pump branch of `initialize_pool_data` has
no key-mint-presence check — the concrete pool whose sides are
`32 × 1` and `32 × 2` is registered under the key mint `32 × 3`
with both stored mints different from the key, instead of being
rejected. -/
theorem pump_branch_registers_pool_without_key_mint :
    c2_registers_violating_pool = true := by decide

/-- C2 amended: the Raydium V4 branch does reject (with an error, not
a registration) a pool in which neither decoded side equals the
entry's key mint; the Pump branch performs no such check, but
whenever exactly one decoded side equals the key mint, the Pump record
it registers has `token_mint` equal to the key and `base_mint`
distinct from it. -/
theorem key_mint_invariant_amended (fpa : Fpa) (ata : Ata) (env : DexDecoders)
    (t : ProgramIdTable) (rpc : Rpc) (mint addr : Pubkey) :
    (∀ account info, rpc addr = .ok account → account.owner = t.raydiumV4 →
      env.raydiumLoad account.data = .ok info →
      info.coin_mint ≠ mint → info.pc_mint ≠ mint →
      process_raydium_pool env t rpc mint addr = .fail "Invalid Raydium pool") ∧
    (∀ account info p, rpc addr = .ok account →
      PumpAmmInfo.load_checked fpa account.data = .ok info →
      process_pump_pool fpa ata rpc mint addr = .add p →
      ((mint = info.base_mint ∧ mint ≠ info.quote_mint) ∨
       (mint ≠ info.base_mint ∧ mint = info.quote_mint)) →
      p.token_mint = mint ∧ p.base_mint ≠ mint) := by
  constructor
  · intro account info hacct howner hload hc hp
    unfold process_raydium_pool
    simp only [hacct]
    rw [if_neg (not_not_intro howner)]
    simp only [hload]
    rw [if_pos ⟨hc, hp⟩]
  · intro account info p hacct hload hadd hone
    unfold process_pump_pool at hadd
    simp only [hacct] at hadd
    split at hadd
    · exact StepOut.noConfusion hadd
    · simp only [hload] at hadd
      rw [StepOut.add.injEq] at hadd
      subst hadd
      dsimp only
      rcases hone with ⟨hb, hq⟩ | ⟨hb, hq⟩
      · rw [if_pos hb]
        exact ⟨hb.symm, fun hcontra => hq (hcontra ▸ rfl)⟩
      · rw [if_neg hb]
        exact ⟨hq.symm, fun hcontra => hb (hcontra ▸ rfl)⟩

/-- An account owned by the placeholder Raydium V4 program id of `t0`. -/
def acctRay : Account := ⟨List.replicate 32 10, []⟩

def rpcRay : Rpc := fun _ => .ok acctRay

/-- The key mint equal to the `base_mint` side of `c2data`. -/
def kB : Pubkey := List.replicate 32 1

/-- The decoded form of `c2data`. -/
def info0 : PumpAmmInfo where
  base_mint := List.replicate 32 1
  quote_mint := List.replicate 32 2
  pool_base_token_account := zeroPubkey
  pool_quote_token_account := zeroPubkey
  coin_creator := zeroPubkey
  coin_creator_vault_authority := zeroPubkey
  is_mayhem_mode := false

/-- The Pump record registered from `c2data` under key mint `kB`. -/
def pW : PumpPool where
  pool := addr0
  token_vault := zeroPubkey
  sol_vault := zeroPubkey
  fee_wallet := pump_fee_wallet
  fee_token_wallet := List.replicate 32 9
  coin_creator_vault_ata := List.replicate 32 9
  coin_creator_vault_authority := zeroPubkey
  token_mint := List.replicate 32 1
  base_mint := List.replicate 32 2
  is_mayhem_mode := false

/-- Witness for the amended C2: the Raydium rejection fires on a pool
with neither side equal to `kK`, and the registered Pump record for a
key equal to the base side carries the key as `token_mint`. -/
theorem key_mint_invariant_amended_witness :
    process_raydium_pool env0 t0 rpcRay kK addr0 = .fail "Invalid Raydium pool" ∧
    (pW.token_mint = kB ∧ pW.base_mint ≠ kB) :=
  ⟨(key_mint_invariant_amended fpa0 ata0 env0 t0 rpcRay kK addr0).1
     acctRay rInfo0 rfl rfl rfl (by decide) (by decide),
   (key_mint_invariant_amended fpa0 ata0 env0 t0 c2rpc kB addr0).2
     ⟨pump_program_id, c2data⟩ info0 pW rfl (by decide) (by decide)
     (Or.inl ⟨by decide, by decide⟩)⟩

/-! ## C3: disposition of decode failures in `initialize_pool_data` -/

/-- `true` when the registration-loop step aborts the whole
registration (the source's `return Err(..)`). -/
def StepOut.aborts {ρ : Type} : StepOut ρ → Bool
  | .fail _ => true
  | _ => false

def mintX : Pubkey := List.replicate 32 4

def badAddr : Pubkey := List.replicate 32 40

def goodAddr : Pubkey := List.replicate 32 41

/-- A decodable Raydium CLMM pool state pairing SOL with `mintX`. -/
def ps0 : PoolState where
  token_mint_0 := sol_mint
  token_mint_1 := mintX
  token_vault_0 := List.replicate 32 42
  token_vault_1 := List.replicate 32 43
  amm_config := List.replicate 32 44
  observation_key := List.replicate 32 45
  tick_current := 0
  tick_spacing := 1

/-- Decoders in which the CLMM pool-state decoder fails exactly on the
empty buffer, and tick-array derivation succeeds. -/
def c3env : DexDecoders :=
  { env0 with
    poolStateLoad := fun d => if d.length = 0 then .error "bad" else .ok ps0
    tickArrayPubkeys := fun _ _ _ _ _ => .ok [] }

/-- Fetch giving `badAddr` an empty (undecodable) CLMM account and
every other address a decodable one, all owned by `t0`'s CLMM id. -/
def c3rpc : Rpc := fun a =>
  if a = badAddr then .ok ⟨List.replicate 32 12, []⟩
  else .ok ⟨List.replicate 32 12, [0]⟩

/-- The bitmap-extension derivation stand-in. -/
def bitmap0 : Pubkey → Pubkey := fun _ => List.replicate 32 8

/-- `true` when the CLMM registration loop, given one undecodable pool
followed by one decodable pool, returns `Ok` with exactly the one good
pool registered. -/
def c3_loop_outcome : Bool :=
  match processPools (process_raydium_clmm_pool c3env t0 bitmap0 c3rpc mintX)
      [badAddr, goodAddr] with
  | .ok l => l.length == 1
  | _ => false

/-- C3 counterexample: in the Raydium CLMM section of
`initialize_pool_data` a decode failure of an explicitly listed pool
does not abort — the pool is skipped (`continue`) and the loop
finishes `Ok` with the remaining pool registered, contradicting the
claim that every venue aborts on decode failure. -/
theorem clmm_decode_error_skips_and_continues :
    (c3env.poolStateLoad []).isOk = false ∧
    process_raydium_clmm_pool c3env t0 bitmap0 c3rpc mintX badAddr = .skip ∧
    c3_loop_outcome = true := by
  refine ⟨rfl, by decide, by decide⟩

/-- C3 amended: when the account of an explicitly listed pool fails to
decode, the Pump, Raydium V4, Raydium CP, Meteora DLMM, Whirlpool,
Meteora DAMM and Heaven sections of `initialize_pool_data` abort with
an error, while the Raydium CLMM, Meteora DAMM v2 and Vertigo sections
log the failure, skip the pool and continue with the remaining
pools. -/
theorem decode_failure_disposition (fpa : Fpa) (ata : Ata) (env : DexDecoders)
    (t : ProgramIdTable) (deriveVault : Pubkey → Pubkey → Pubkey)
    (bitmapExtension : Pubkey → Pubkey) (rpc : Rpc)
    (mint token_program addr : Pubkey) (account : Account)
    (hacct : rpc addr = .ok account) :
    (∀ e, account.owner = pump_program_id →
      PumpAmmInfo.load_checked fpa account.data = .err e →
      (process_pump_pool fpa ata rpc mint addr).aborts = true) ∧
    (∀ e, account.owner = t.raydiumV4 →
      env.raydiumLoad account.data = .error e →
      (process_raydium_pool env t rpc mint addr).aborts = true) ∧
    (∀ e, account.owner = t.raydiumCp →
      env.raydiumCpLoad account.data = .error e →
      (process_raydium_cp_pool env t rpc mint addr).aborts = true) ∧
    (∀ e, account.owner = t.dlmm →
      env.dlmmLoad account.data = .error e →
      (process_dlmm_pool env t rpc mint addr).aborts = true) ∧
    (∀ e, account.owner = t.whirlpool →
      env.whirlpoolDeserialize account.data = .error e →
      (process_whirlpool_pool fpa env t rpc mint addr).aborts = true) ∧
    (∀ e, account.owner = t.damm →
      env.dammDeserialize account.data = .error e →
      (process_meteora_damm_pool env t rpc mint addr).aborts = true) ∧
    (account.owner = t.heaven →
      env.heavenParse account.data = none →
      (process_heaven_pool env t rpc mint token_program addr).aborts = true) ∧
    (∀ e, account.owner = t.raydiumClmm →
      env.poolStateLoad account.data = .error e →
      process_raydium_clmm_pool env t bitmapExtension rpc mint addr = .skip) ∧
    (∀ e, account.owner = t.dammV2 →
      env.dammV2Load account.data = .error e →
      process_meteora_damm_v2_pool env t rpc mint addr = .skip) ∧
    (∀ e, account.owner = t.vertigo →
      env.vertigoLoad account.data addr = .error e →
      process_vertigo_pool env t deriveVault rpc mint addr = .skip) := by
  refine ⟨?_, ?_, ?_, ?_, ?_, ?_, ?_, ?_, ?_, ?_⟩
  · intro e howner hdec
    unfold process_pump_pool
    simp only [hacct]
    rw [if_neg (not_not_intro howner)]
    simp only [hdec]
    rfl
  · intro e howner hdec
    unfold process_raydium_pool
    simp only [hacct]
    rw [if_neg (not_not_intro howner)]
    simp only [hdec]
    rfl
  · intro e howner hdec
    unfold process_raydium_cp_pool
    simp only [hacct]
    rw [if_neg (not_not_intro howner)]
    simp only [hdec]
    rfl
  · intro e howner hdec
    unfold process_dlmm_pool
    simp only [hacct]
    rw [if_neg (not_not_intro howner)]
    simp only [hdec]
    rfl
  · intro e howner hdec
    unfold process_whirlpool_pool
    simp only [hacct]
    rw [if_neg (not_not_intro howner)]
    simp only [hdec]
    rfl
  · intro e howner hdec
    unfold process_meteora_damm_pool
    simp only [hacct]
    rw [if_neg (not_not_intro howner)]
    simp only [hdec]
    rfl
  · intro howner hdec
    unfold process_heaven_pool
    simp only [hacct]
    rw [if_neg (not_not_intro howner)]
    simp only [hdec]
    rfl
  · intro e howner hdec
    unfold process_raydium_clmm_pool
    simp only [hacct]
    rw [if_neg (not_not_intro howner)]
    simp only [hdec]
  · intro e howner hdec
    unfold process_meteora_damm_v2_pool
    simp only [hacct]
    rw [if_neg (not_not_intro howner)]
    simp only [hdec]
  · intro e howner hdec
    unfold process_vertigo_pool
    simp only [hacct]
    rw [if_neg (not_not_intro howner)]
    simp only [hdec]

/-- An 8-byte Pump account whose payload fails the minimum-length
check. -/
def acctPumpShort : Account := ⟨pump_program_id, List.replicate 8 0⟩

def rpcPumpShort : Rpc := fun _ => .ok acctPumpShort

/-- An empty account owned by `t0`'s placeholder CLMM id; `env0`'s
CLMM decoder fails on it. -/
def acctClmmBad : Account := ⟨List.replicate 32 12, []⟩

def rpcClmmBad : Rpc := fun _ => .ok acctClmmBad

/-- Witness for the amended C3: a Pump decode failure aborts the
registration, while a Raydium CLMM decode failure merely skips the
pool. -/
theorem decode_failure_disposition_witness :
    (process_pump_pool fpa0 ata0 rpcPumpShort kK addr0).aborts = true ∧
    process_raydium_clmm_pool env0 t0 bitmap0 rpcClmmBad kK addr0 = .skip :=
  ⟨(decode_failure_disposition fpa0 ata0 env0 t0 (fun _ _ => zeroPubkey) bitmap0
      rpcPumpShort kK zeroPubkey addr0 acctPumpShort rfl).1
      "Invalid data length for PumpAmmInfo" rfl (by decide),
   (decode_failure_disposition fpa0 ata0 env0 t0 (fun _ _ => zeroPubkey) bitmap0
      rpcClmmBad kK zeroPubkey addr0 acctClmmBad rfl).2.2.2.2.2.2.2.1
      "decode" rfl rfl⟩

end ArbBot
